import Mathlib

/-!
Verification of the geo-cities resolution engine.

This file gives a shallow embedding of the cache and orchestration code of
the repository (`src/sqlite_cache.py`, `src/app_completo_sqlite.py`) and
proves properties of it.  Modelling conventions:

* Python strings are modelled as `List Char` (`Str`); `str.upper`,
  `str.strip`, `str.replace('  ', ' ')` and lexicographic `<` are modelled
  directly on the character list (ASCII semantics, which covers every
  concrete input appearing below).
* `hashlib.sha256(x).hexdigest()` / `hashlib.md5(x).hexdigest()` are
  deterministic functions of `x`; a hash key is modelled by its preimage
  string.  Equality of preimages gives equality of digests, which is the
  only property the code relies on for lookups; inequality of preimages is
  read as inequality of digests (collision freeness).
* `datetime` instants are modelled as integers, with `timedelta(hours=h)`
  adding `h` (the unit is irrelevant to the logic).
* SQLite tables keyed by a unique hash column are modelled as functions
  `Str → Option entry`; session statistics counters are natural numbers.
* Thread pools: the `as_completed` collection order of a fan-out is an
  explicit list parameter; theorems quantify over every permutation of the
  submitted work, covering every possible completion order.
* Python floats are modelled as rationals where only arithmetic on finite
  values occurs, and by the tagged type `PyFloat` where the distinction
  finite / infinite / NaN matters.
-/

/-- Python strings, modelled as lists of characters. -/
abbrev Str := List Char

/-- Model of Python `str.upper()` (ASCII). -/
def pyUpper (s : Str) : Str := s.map Char.toUpper

/-- Model of Python `str.strip()`: drop leading and trailing whitespace. -/
def pyStrip (s : Str) : Str :=
  ((s.dropWhile Char.isWhitespace).reverse.dropWhile Char.isWhitespace).reverse

/-- Model of Python string comparison `s < t`: lexicographic by code point,
with a proper prefix ordered before its extensions. -/
def pyLt : Str → Str → Bool
  | [], [] => false
  | [], _ :: _ => true
  | _ :: _, [] => false
  | a :: s, b :: t => if a < b then true else if b < a then false else pyLt s t

/-- Model of Python `round(x, 2)` on the rationals.  (The banker's-rounding
tie behaviour of floats is abstracted by `round`; no claim depends on the
value at a tie.) -/
def round2 (q : ℚ) : ℚ := (round (q * 100) : ℤ) / 100

/-- Model of Python `round(x, 0)` on the rationals. -/
def round0 (q : ℚ) : ℚ := (round q : ℤ)

namespace SQLiteCacheWithDistances

/-- Row of the `coordinates` table of `app_completo_sqlite.py`
(`SQLiteCacheWithDistances`). -/
structure CoordEntry where
  city_name : Str
  longitude : ℚ
  latitude : ℚ
  expires_at : ℤ
  hits : ℕ
deriving DecidableEq

/-- Row of the `distances` table of `app_completo_sqlite.py`. -/
structure DistEntry where
  origin_city : Str
  destination_city : Str
  distance_km : ℚ
  duration_minutes : ℚ
  created_at : ℤ
  expires_at : ℤ
  hits : ℕ
deriving DecidableEq

/-- State of the SQLite store of `SQLiteCacheWithDistances`: the two
hash-keyed tables plus the session counters of `cache_stats`. -/
structure State where
  ttl_hours : ℤ
  distance_ttl_hours : ℤ
  coordinates : Str → Option CoordEntry
  distances : Str → Option DistEntry
  coord_hits : ℕ
  coord_misses : ℕ
  coord_saves : ℕ
  distance_hits : ℕ
  distance_misses : ℕ
  distance_saves : ℕ

/-- `SQLiteCacheWithDistances._get_route_hash`: normalize both names with
`.upper().strip()`, order the pair lexicographically, join with `'|'` and
hash.  The sha256 digest is modelled by its preimage route string. -/
def get_route_hash (origin_city destination_city : Str) : Str :=
  let origin_norm := pyStrip (pyUpper origin_city)
  let dest_norm := pyStrip (pyUpper destination_city)
  if pyLt origin_norm dest_norm then origin_norm ++ '|' :: dest_norm
  else dest_norm ++ '|' :: origin_norm

/-- `SQLiteCacheWithDistances.save_coordinates`: key is
`md5(city_name.upper())` — note, unlike `SQLiteCache._get_city_hash`, the
name is *not* stripped.  `INSERT OR REPLACE` resets `hits` to its default. -/
def city_hash_md5 (city_name : Str) : Str := pyUpper city_name

def save_coordinates (st : State) (now : ℤ) (city_name : Str) (coordinates : ℚ × ℚ) :
    State :=
  let city_hash := city_hash_md5 city_name
  let entry : CoordEntry :=
    { city_name := city_name
      longitude := coordinates.1
      latitude := coordinates.2
      expires_at := now + st.ttl_hours
      hits := 0 }
  { st with
    coordinates := fun k => if k = city_hash then some entry else st.coordinates k
    coord_saves := st.coord_saves + 1 }

/-- `SQLiteCacheWithDistances.get_coordinates`: look up by
`md5(city_name.upper())`; a missing row or an expired row (which is
deleted) is a miss, a live row gets `hits + 1` and is a hit. -/
def get_coordinates (st : State) (now : ℤ) (city_name : Str) :
    State × Option (ℚ × ℚ) :=
  let city_hash := city_hash_md5 city_name
  match st.coordinates city_hash with
  | none => ({ st with coord_misses := st.coord_misses + 1 }, none)
  | some row =>
    if now > row.expires_at then
      ({ st with
          coordinates := fun k => if k = city_hash then none else st.coordinates k
          coord_misses := st.coord_misses + 1 }, none)
    else
      ({ st with
          coordinates := fun k =>
            if k = city_hash then some { row with hits := row.hits + 1 }
            else st.coordinates k
          coord_hits := st.coord_hits + 1 },
        some (row.longitude, row.latitude))

/-- `SQLiteCacheWithDistances.save_distance`: upsert (`INSERT OR REPLACE`,
so `hits` resets to 0) under the symmetric route hash, with
`expires_at = now + distance_ttl_hours`. -/
def save_distance (st : State) (now : ℤ) (origin_city destination_city : Str)
    (distance_km duration_minutes : ℚ) : State :=
  let route_hash := get_route_hash origin_city destination_city
  let entry : DistEntry :=
    { origin_city := origin_city
      destination_city := destination_city
      distance_km := distance_km
      duration_minutes := duration_minutes
      created_at := now
      expires_at := now + st.distance_ttl_hours
      hits := 0 }
  { st with
    distances := fun k => if k = route_hash then some entry else st.distances k
    distance_saves := st.distance_saves + 1 }

/-- Dictionary returned by `SQLiteCacheWithDistances.get_distance` on a hit
(status field `'cache_hit'` is implicit). -/
structure DistResult where
  distancia_km : ℚ
  tempo_min : ℚ
  hits : ℕ
deriving DecidableEq

/-- `SQLiteCacheWithDistances.get_distance`: look up by the symmetric route
hash; missing row or expired row (deleted) is a miss, a live row gets
`hits + 1` and returns the rounded stored values. -/
def get_distance (st : State) (now : ℤ) (origin_city destination_city : Str) :
    State × Option DistResult :=
  let route_hash := get_route_hash origin_city destination_city
  match st.distances route_hash with
  | none => ({ st with distance_misses := st.distance_misses + 1 }, none)
  | some row =>
    if now > row.expires_at then
      ({ st with
          distances := fun k => if k = route_hash then none else st.distances k
          distance_misses := st.distance_misses + 1 }, none)
    else
      ({ st with
          distances := fun k =>
            if k = route_hash then some { row with hits := row.hits + 1 }
            else st.distances k
          distance_hits := st.distance_hits + 1 },
        some { distancia_km := round2 row.distance_km
               tempo_min := round0 row.duration_minutes
               hits := row.hits + 1 })

/-- Fresh store with the default TTLs (coordinates 24 h, distances 168 h). -/
def emptyState : State :=
  { ttl_hours := 24
    distance_ttl_hours := 168
    coordinates := fun _ => none
    distances := fun _ => none
    coord_hits := 0
    coord_misses := 0
    coord_saves := 0
    distance_hits := 0
    distance_misses := 0
    distance_saves := 0 }

end SQLiteCacheWithDistances

/-- Single-pass model of Python `s.replace('  ', ' ')`: scan left to right,
replace each non-overlapping occurrence of two spaces by one. -/
def replaceDoubleSpace : Str → Str
  | ' ' :: ' ' :: rest => ' ' :: replaceDoubleSpace rest
  | c :: rest => c :: replaceDoubleSpace rest
  | [] => []

/-- A Python float, tagged by finiteness (used where the spec talks about
finite numbers; arithmetic never happens on the non-finite tags). -/
inductive PyFloat where
  | finite (val : ℚ)
  | posInf
  | negInf
  | nan
deriving DecidableEq

/-- True exactly on finite values. -/
def PyFloat.isFinite : PyFloat → Bool
  | .finite _ => true
  | _ => false

namespace SQLiteCache

/-- Row of the `coordinates` table of `sqlite_cache.py` (`SQLiteCache`). -/
structure CoordEntry where
  city_name : Str
  city_name_normalized : Str
  longitude : PyFloat
  latitude : PyFloat
  source : Str
  confidence : ℚ
  created_at : ℤ
  expires_at : ℤ
  hits : ℕ
deriving DecidableEq

/-- State of the `SQLiteCache` store: the hash-keyed `coordinates` table
plus the session counters used by `_update_stats`. -/
structure State where
  ttl_hours : ℤ
  coordinates : Str → Option CoordEntry
  hits : ℕ
  misses : ℕ
  saves : ℕ

/-- `SQLiteCache._get_city_hash`: sha256 of `city_name.upper().strip()`,
modelled by the preimage. -/
def get_city_hash (city_name : Str) : Str := pyStrip (pyUpper city_name)

/-- `SQLiteCache._normalize_city_name`:
`city_name.upper().strip().replace('  ', ' ')`. -/
def normalize_city_name (city_name : Str) : Str :=
  replaceDoubleSpace (pyStrip (pyUpper city_name))

/-- `SQLiteCache.save_coordinates`: reject unless the coordinates argument
is a list of exactly two elements (`if not coordinates or len(coordinates)
!= 2`); otherwise upsert by canonical key with
`expires_at = now + ttl_hours`.  The `ON CONFLICT` clause updates the
coordinates, expiry, source and confidence but keeps `hits` and
`created_at` of an existing row. -/
def save_coordinates (st : State) (now : ℤ) (city_name : Str)
    (coordinates : List PyFloat) (source : Str) (confidence : ℚ) :
    State × Bool :=
  match coordinates with
  | [lon, lat] =>
    let city_hash := get_city_hash city_name
    let entry : CoordEntry :=
      match st.coordinates city_hash with
      | none =>
        { city_name := city_name
          city_name_normalized := normalize_city_name city_name
          longitude := lon
          latitude := lat
          source := source
          confidence := confidence
          created_at := now
          expires_at := now + st.ttl_hours
          hits := 0 }
      | some old =>
        { old with
          longitude := lon
          latitude := lat
          source := source
          confidence := confidence
          expires_at := now + st.ttl_hours }
    ({ st with
        coordinates := fun k => if k = city_hash then some entry else st.coordinates k
        saves := st.saves + 1 }, true)
  | _ => (st, false)

/-- `SQLiteCache.get_coordinates`: canonicalize, look up by hash; a missing
row is a miss; an expired row (`_is_expired`) is deleted and is a miss; a
live row gets its `hits` column incremented, counts a session hit, and its
`[longitude, latitude]` are returned. -/
def get_coordinates (st : State) (now : ℤ) (city_name : Str) :
    State × Option (List PyFloat) :=
  let city_hash := get_city_hash city_name
  match st.coordinates city_hash with
  | none => ({ st with misses := st.misses + 1 }, none)
  | some row =>
    if now > row.expires_at then
      ({ st with
          coordinates := fun k => if k = city_hash then none else st.coordinates k
          misses := st.misses + 1 }, none)
    else
      ({ st with
          coordinates := fun k =>
            if k = city_hash then some { row with hits := row.hits + 1 }
            else st.coordinates k
          hits := st.hits + 1 },
        some [row.longitude, row.latitude])

/-- Fresh `SQLiteCache` store with the default 24 h TTL. -/
def emptyState : State :=
  { ttl_hours := 24
    coordinates := fun _ => none
    hits := 0
    misses := 0
    saves := 0 }

end SQLiteCache

namespace ParallelProcessor

open SQLiteCacheWithDistances

/-- Status values of the distance-calculation results of
`app_completo_sqlite.py`. -/
inductive CalcStatus where
  | sucesso
  | cache_hit
  | erro_calculo
  | coordenadas_nao_encontradas
deriving DecidableEq

/-- Dictionary returned by
`ParallelProcessor.calculate_distance_with_retry`.  `erro_detalhes` is the
failure-detail string, modelled by the (origin, destination) pair it
interpolates; `hits` occurs only in the cache-hit dictionary. -/
structure CalcResult where
  status : CalcStatus
  distancia_km : Option ℚ
  tempo_min : Option ℚ
  hits : Option ℕ
  erro_detalhes : Option (Str × Str)
deriving DecidableEq

/-- One OSRM request attempt, as observed by the retry loop: HTTP 200 with
a non-empty `routes` array carrying `distance` (metres) and `duration`
(seconds), a non-200 / empty-routes response, or a raised exception.  The
loop treats the two failure kinds identically. -/
inductive AttemptOutcome where
  | ok (distance : ℚ) (duration : ℚ)
  | badResponse
  | raised
deriving DecidableEq

/-- True exactly on a successful routing response. -/
def AttemptOutcome.isOk : AttemptOutcome → Bool
  | .ok _ _ => true
  | _ => false

/-- Observable effects of one call to `calculate_distance_with_retry`:
final cache state, number of `requests.get` calls, the sequence of
back-off delays slept (in seconds, in order), and the returned dictionary. -/
structure RetryOut where
  state : State
  calls : ℕ
  sleeps : List ℕ
  result : CalcResult

/-- The `for attempt in range(max_retries)` loop of
`calculate_distance_with_retry`, consuming one `AttemptOutcome` per
attempt.  `attempt` is the index of the next attempt; the list holds the
outcomes of the remaining attempts, so the guard
`attempt < max_retries - 1` of the sleep is exactly `rest ≠ []`.  On
success the raw (unrounded) values are stored via `save_distance` and the
rounded ones returned. -/
def retryAux (now : ℤ) (origin_city destination_city : Str) (st : State)
    (attempt : ℕ) : List AttemptOutcome → RetryOut
  | [] =>
    { state := st
      calls := 0
      sleeps := []
      result :=
        { status := .erro_calculo
          distancia_km := none
          tempo_min := none
          hits := none
          erro_detalhes := some (origin_city, destination_city) } }
  | .ok distance duration :: _ =>
    let distance_km := distance / 1000
    let duration_min := duration / 60
    { state := save_distance st now origin_city destination_city distance_km duration_min
      calls := 1
      sleeps := []
      result :=
        { status := .sucesso
          distancia_km := some (round2 distance_km)
          tempo_min := some (round0 duration_min)
          hits := none
          erro_detalhes := none } }
  | .badResponse :: rest =>
    let r := retryAux now origin_city destination_city st (attempt + 1) rest
    { state := r.state
      calls := r.calls + 1
      sleeps := (if rest = [] then [] else [2 ^ attempt]) ++ r.sleeps
      result := r.result }
  | .raised :: rest =>
    let r := retryAux now origin_city destination_city st (attempt + 1) rest
    { state := r.state
      calls := r.calls + 1
      sleeps := (if rest = [] then [] else [2 ^ attempt]) ++ r.sleeps
      result := r.result }

/-- `ParallelProcessor.calculate_distance_with_retry` of
`app_completo_sqlite.py`: check the distance cache first; on a hit return
the cached dictionary with zero client calls; on a miss run the retry loop
over the first `max_retries` attempt outcomes. -/
def calculate_distance_with_retry (st : State) (now : ℤ)
    (origin_coords dest_coords : ℚ × ℚ) (origin_city destination_city : Str)
    (outcomes : ℕ → AttemptOutcome) (max_retries : ℕ := 3) : RetryOut :=
  let p := get_distance st now origin_city destination_city
  match p.2 with
  | some cached =>
    { state := p.1
      calls := 0
      sleeps := []
      result :=
        { status := .cache_hit
          distancia_km := some cached.distancia_km
          tempo_min := some cached.tempo_min
          hits := some cached.hits
          erro_detalhes := none } }
  | none =>
    retryAux now origin_city destination_city p.1 0 ((List.range max_retries).map outcomes)

end ParallelProcessor

namespace ParallelProcessor

/-- One spreadsheet job (`linha_data`): batch index, origin, ordered
destinations. -/
structure Linha where
  linha_excel : ℕ
  origem : Str
  destinos : List Str
deriving DecidableEq

/-- Kinds of entries of `erros_detalhados`. -/
inductive ErroTipo where
  | geocoding_origem
  | geocoding_destino
  | calculo_distancia
deriving DecidableEq

/-- One entry of `erros_detalhados` (the free-text `erro` message is
determined by `tipo` and is not modelled). -/
structure ErroDetalhado where
  tipo : ErroTipo
  origem : Str
  destino : Str
deriving DecidableEq

/-- The literal `'N/A'` used as the destination of an origin-geocoding
error record. -/
def NA : Str := "N/A".toList

/-- Per-destination result dictionary appended to `destinos_calculados`. -/
structure DestCalc where
  destino : Str
  distancia_km : Option ℚ
  tempo_min : Option ℚ
  status : CalcStatus
  erro_detalhado : Option ErroDetalhado
deriving DecidableEq

/-- Result of `calculate_distance_with_retry` for one destination, as the
per-job aggregation observes it: a cache hit (rounded values and a hit
count), a fresh computation, or failure after the retry budget.  These are
the only shapes that function returns. -/
inductive DistOutcome where
  | cacheHit (distancia_km tempo_min : ℚ) (hits : ℕ)
  | fresh (distancia_km tempo_min : ℚ)
  | failed
deriving DecidableEq

/-- The worker body `calcular_distancia_destino` of
`process_linha_paralela`: a destination without coordinates yields a
`coordenadas_nao_encontradas` record with a `geocoding_destino` detail;
otherwise the retry result is tagged with the destination, and a
`calculo_distancia` detail is attached when its status is neither
`sucesso` nor `cache_hit`. -/
def calcular_distancia_destino (origem : Str) (dist : Str → DistOutcome) :
    Str × Option (ℚ × ℚ) → DestCalc
  | (destino, none) =>
    { destino := destino
      distancia_km := none
      tempo_min := none
      status := .coordenadas_nao_encontradas
      erro_detalhado := some ⟨.geocoding_destino, origem, destino⟩ }
  | (destino, some _) =>
    match dist destino with
    | .cacheHit km mn _ =>
      { destino := destino
        distancia_km := some km
        tempo_min := some mn
        status := .cache_hit
        erro_detalhado := none }
    | .fresh km mn =>
      { destino := destino
        distancia_km := some km
        tempo_min := some mn
        status := .sucesso
        erro_detalhado := none }
    | .failed =>
      { destino := destino
        distancia_km := none
        tempo_min := none
        status := .erro_calculo
        erro_detalhado := some ⟨.calculo_distancia, origem, destino⟩ }

/-- Status of a whole job result. -/
inductive ResultStatus where
  | processando
  | origem_nao_encontrada
  | concluido
deriving DecidableEq

/-- The `resultado` dictionary of `process_linha_paralela`
(`tempo_processamento` is wall-clock time and is not modelled). -/
structure Resultado where
  linha_excel : ℕ
  origem : Str
  total_destinos : ℕ
  destinos_calculados : List DestCalc
  destino_mais_proximo : Option Str
  km_mais_proximo : Option ℚ
  sucessos : ℕ
  erros : ℕ
  status : ResultStatus
  erros_detalhados : List ErroDetalhado
deriving DecidableEq

/-- Model of Python `min(xs, key=f)` on a non-empty list: the first
element with minimal key (a later element replaces the running minimum
only when strictly smaller). -/
def pyMinBy (key : DestCalc → ℚ) : List DestCalc → Option DestCalc
  | [] => none
  | a :: t => some (t.foldl (fun m x => if key x < key m then x else m) a)

/-- Success test of the tally loop:
`calc_resultado['status'] in ['sucesso', 'cache_hit']`. -/
def isSuccessStatus (c : DestCalc) : Bool :=
  c.status = CalcStatus.sucesso ∨ c.status = CalcStatus.cache_hit

/-- `ParallelProcessor.process_linha_paralela` of `app_completo_sqlite.py`.

`geo` is the (deterministic) result of `get_coordinates_with_cache` per
name and `dist` the result of `calculate_distance_with_retry` per
destination.  `order` is the order in which the `as_completed` loops hand
back the destination futures; the two nested fan-outs compose to an
arbitrary permutation of `linha.destinos`, so theorems quantify over every
`order` that is a permutation of `linha.destinos`.

If the origin does not geocode, the job stops with status
`origem_nao_encontrada`, `erros = len(destinos)` and a single
`geocoding_origem` error record.  Otherwise each destination produces one
entry of `destinos_calculados` (in completion order), the tallies count
successes and errors, and `min(..., key=distancia_km)` over the results
with a non-`None` distance picks the nearest destination. -/
def process_linha_paralela (geo : Str → Option (ℚ × ℚ)) (dist : Str → DistOutcome)
    (linha : Linha) (order : List Str) : Resultado :=
  match geo linha.origem with
  | none =>
    { linha_excel := linha.linha_excel
      origem := linha.origem
      total_destinos := linha.destinos.length
      destinos_calculados := []
      destino_mais_proximo := none
      km_mais_proximo := none
      sucessos := 0
      erros := linha.destinos.length
      status := .origem_nao_encontrada
      erros_detalhados := [⟨.geocoding_origem, linha.origem, NA⟩] }
  | some _ =>
    let destinos_com_coords := order.map (fun destino => (destino, geo destino))
    let calcs := destinos_com_coords.map (calcular_distancia_destino linha.origem dist)
    let sucessos_list := calcs.filter (fun d => d.distancia_km.isSome)
    let mais_proximo := pyMinBy (fun d => d.distancia_km.getD 0) sucessos_list
    { linha_excel := linha.linha_excel
      origem := linha.origem
      total_destinos := linha.destinos.length
      destinos_calculados := calcs
      destino_mais_proximo := mais_proximo.map (·.destino)
      km_mais_proximo := mais_proximo.bind (·.distancia_km)
      sucessos := calcs.countP isSuccessStatus
      erros := calcs.countP (fun c => ! isSuccessStatus c)
      status := .concluido
      erros_detalhados := calcs.filterMap (fun c =>
        if isSuccessStatus c then none else c.erro_detalhado) }

/-- `ParallelProcessor.process_all_lines_parallel`: jobs are dispatched to
a pool and collected in completion order (`completion`, a permutation of
the submitted batch); each job runs with its own internal completion order
`ord`; the collected results are then sorted ascending by `linha_excel`
(Python's stable `list.sort(key=...)`, modelled by `mergeSort`). -/
def process_all_lines_parallel (geo : Str → Option (ℚ × ℚ))
    (dist : Str → DistOutcome) (ord : Linha → List Str)
    (completion : List Linha) : List Resultado :=
  (completion.map (fun linha => process_linha_paralela geo dist linha (ord linha))).mergeSort
    (fun a b => decide (a.linha_excel ≤ b.linha_excel))

end ParallelProcessor

namespace AdvancedDistanceSystemSQLite

open ParallelProcessor

/-- `AdvancedDistanceSystemSQLite._clean_city_name`: `None` (NaN cell)
stays `None`; otherwise `strip().upper()`, reject the placeholder strings,
then collapse double spaces (single pass of `replace('  ', ' ')`). -/
def clean_city_name (city_value : Option Str) : Option Str :=
  match city_value with
  | none => none
  | some s =>
    let city_clean := pyUpper (pyStrip s)
    if city_clean = [] ∨ city_clean = "NAN".toList ∨ city_clean = "NONE".toList ∨
        city_clean = "NULL".toList ∨ city_clean = "#N/A".toList then none
    else some (replaceDoubleSpace city_clean)

/-- One spreadsheet row: the origin cell and the destination cells. -/
structure Row where
  origem_cell : Option Str
  destino_cells : List (Option Str)

/-- The inner destination loop of `analyze_spreadsheet_advanced` for one
row with cleaned origin `origem`: a cell cleaning to `None` is skipped, a
destination equal to the origin is not appended and increments
`destinos_ignorados`, every other destination is appended in order. -/
def row_destinos (origem : Str) : List (Option Str) → List Str × ℕ
  | [] => ([], 0)
  | cell :: rest =>
    let r := row_destinos origem rest
    match clean_city_name cell with
    | none => r
    | some destino =>
      if destino ≠ origem then (destino :: r.1, r.2) else (r.1, r.2 + 1)

/-- The row loop of `analyze_spreadsheet_advanced` (`idx` is the 0-based
`df.iterrows` index, `linha_excel = idx + 1`): rows whose origin cell does
not clean to a name are skipped; a row contributes a job only when it has
at least one destination left. -/
def analyze_rows : ℕ → List Row → List Linha × ℕ
  | _, [] => ([], 0)
  | idx, row :: rest =>
    let r := analyze_rows (idx + 1) rest
    match clean_city_name row.origem_cell with
    | none => r
    | some origem =>
      let d := row_destinos origem row.destino_cells
      (if d.1 ≠ [] then ⟨idx + 1, origem, d.1⟩ :: r.1 else r.1, d.2 + r.2)

/-- `AdvancedDistanceSystemSQLite.analyze_spreadsheet_advanced`, restricted
to the fields the claims are about: the job list `linhas_processaveis` and
the counter `destinos_ignorados`. -/
def analyze_spreadsheet_advanced (rows : List Row) : List Linha × ℕ :=
  analyze_rows 0 rows

end AdvancedDistanceSystemSQLite

/-!  Theorems.  First the helper lemmas about the string model, then one
theorem (plus witness / counterexample) per specification claim. -/

theorem pyLt_irrefl (s : Str) : pyLt s s = false := by
  induction s with
  | nil => rfl
  | cons a t ih => simp [pyLt, ih]

theorem pyLt_asymm : ∀ s t : Str, pyLt s t = true → pyLt t s = false := by
  intro s
  induction s with
  | nil => intro t h; cases t with
    | nil => simp [pyLt] at h
    | cons b u => rfl
  | cons a s ih =>
    intro t h
    cases t with
    | nil => simp [pyLt] at h
    | cons b u =>
      by_cases hab : a < b
      · simp [pyLt, hab, not_lt_of_gt hab, ne_of_gt hab]
      · by_cases hba : b < a
        · simp [pyLt, hab, hba] at h
        · simp only [pyLt, if_neg hab, if_neg hba] at h
          simp only [pyLt, if_neg hab, if_neg hba]
          exact ih u h

theorem pyLt_eq_of_not_lt : ∀ s t : Str, pyLt s t = false → pyLt t s = false → s = t := by
  intro s
  induction s with
  | nil => intro t h1 _; cases t with
    | nil => rfl
    | cons b u => simp [pyLt] at h1
  | cons a s ih =>
    intro t h1 h2
    cases t with
    | nil => simp [pyLt] at h2
    | cons b u =>
      by_cases hab : a < b
      · simp [pyLt, hab] at h1
      · by_cases hba : b < a
        · simp [pyLt, hba, not_lt_of_gt hba] at h2
        · have hEq : a = b := le_antisymm (not_lt.mp hba) (not_lt.mp hab)
          subst hEq
          simp only [pyLt, if_neg hab, if_neg hba] at h1 h2
          rw [ih u h1 h2]

/-- The route key of `_get_route_hash` is symmetric in its two arguments. -/
theorem get_route_hash_comm (a b : Str) :
    SQLiteCacheWithDistances.get_route_hash a b =
      SQLiteCacheWithDistances.get_route_hash b a := by
  unfold SQLiteCacheWithDistances.get_route_hash
  rcases h1 : pyLt (pyStrip (pyUpper a)) (pyStrip (pyUpper b)) with _ | _
  · rcases h2 : pyLt (pyStrip (pyUpper b)) (pyStrip (pyUpper a)) with _ | _
    · simp only [h1, h2, Bool.false_eq_true, if_false]
      rw [pyLt_eq_of_not_lt _ _ h1 h2]
    · simp [h1, h2]
  · simp [h1, pyLt_asymm _ _ h1]

/-- C1: the canonical distance-cache key is symmetric — the key computed
for (A, B) equals the key computed for (B, A), because both names are
uppercased, trimmed and ordered lexicographically before hashing; and a
distance saved under (A, B) is returned (with its stored, rounded values)
by a `get_distance` lookup for (B, A) that happens before expiry. -/
theorem c1_canonical_key_symmetric (A B : Str)
    (st : SQLiteCacheWithDistances.State) (now lookup_time : ℤ)
    (distance_km duration_minutes : ℚ)
    (hlive : ¬ lookup_time > now + st.distance_ttl_hours) :
    SQLiteCacheWithDistances.get_route_hash A B =
      SQLiteCacheWithDistances.get_route_hash B A ∧
    (SQLiteCacheWithDistances.get_distance
        (SQLiteCacheWithDistances.save_distance st now A B distance_km duration_minutes)
        lookup_time B A).2 =
      some { distancia_km := round2 distance_km
             tempo_min := round0 duration_minutes
             hits := 1 } := by
  refine ⟨get_route_hash_comm A B, ?_⟩
  unfold SQLiteCacheWithDistances.get_distance SQLiteCacheWithDistances.save_distance
  rw [get_route_hash_comm B A]
  simp [hlive]

/-- Witness for C1: spec scenario 2 — save ("JUIZ DE FORA",
"BELO HORIZONTE", 250.5 km, 180 min) on a fresh store, then look up the
reversed pair. -/
theorem c1_witness :
    (¬ (0 : ℤ) > 0 + SQLiteCacheWithDistances.emptyState.distance_ttl_hours) ∧
    SQLiteCacheWithDistances.get_route_hash "JUIZ DE FORA".toList "BELO HORIZONTE".toList =
      SQLiteCacheWithDistances.get_route_hash "BELO HORIZONTE".toList "JUIZ DE FORA".toList ∧
    (SQLiteCacheWithDistances.get_distance
        (SQLiteCacheWithDistances.save_distance SQLiteCacheWithDistances.emptyState 0
          "JUIZ DE FORA".toList "BELO HORIZONTE".toList 250.5 180)
        0 "BELO HORIZONTE".toList "JUIZ DE FORA".toList).2 =
      some { distancia_km := round2 250.5, tempo_min := round0 180, hits := 1 } :=
  ⟨by decide,
    c1_canonical_key_symmetric "JUIZ DE FORA".toList "BELO HORIZONTE".toList
      SQLiteCacheWithDistances.emptyState 0 0 250.5 180 (by decide)⟩

/-- Counterexample to C3: in `SQLiteCacheWithDistances`
(`app_completo_sqlite.py`), the coordinate key is `md5(name.upper())`
*without* trimming, so "BELO HORIZONTE" and "belo horizonte " (equal after
uppercasing and trimming) address different entries: the lookup after the
save is a miss and returns nothing. -/
theorem c3_counterexample :
    pyStrip (pyUpper "BELO HORIZONTE".toList) = pyStrip (pyUpper "belo horizonte ".toList) ∧
    (SQLiteCacheWithDistances.get_coordinates
        (SQLiteCacheWithDistances.save_coordinates SQLiteCacheWithDistances.emptyState 0
          "BELO HORIZONTE".toList (-43.9345, -19.9167))
        0 "belo horizonte ".toList).2 = none ∧
    (SQLiteCacheWithDistances.get_coordinates
        (SQLiteCacheWithDistances.save_coordinates SQLiteCacheWithDistances.emptyState 0
          "BELO HORIZONTE".toList (-43.9345, -19.9167))
        0 "belo horizonte ".toList).1.coord_misses = 1 := by decide

/-- C3 (amended): in `SQLiteCache` (`sqlite_cache.py`) the coordinate key
is a pure function of the uppercased, trimmed place name: two names equal
after `upper().strip()` share the canonical hash, and a `get_coordinates`
for the second name within TTL after a `save_coordinates` of the first
returns the stored coordinates and adds exactly one session hit.
(`SQLiteCacheWithDistances` omits the trim, see the counterexample.) -/
theorem c3_coordinate_key_normalized (st : SQLiteCache.State)
    (now lookup_time : ℤ) (n₁ n₂ : Str) (lon lat : PyFloat)
    (source : Str) (confidence : ℚ)
    (hnorm : pyStrip (pyUpper n₁) = pyStrip (pyUpper n₂))
    (hlive : ¬ lookup_time > now + st.ttl_hours) :
    SQLiteCache.get_city_hash n₁ = SQLiteCache.get_city_hash n₂ ∧
    (SQLiteCache.save_coordinates st now n₁ [lon, lat] source confidence).2 = true ∧
    (SQLiteCache.get_coordinates
        (SQLiteCache.save_coordinates st now n₁ [lon, lat] source confidence).1
        lookup_time n₂).2 = some [lon, lat] ∧
    (SQLiteCache.get_coordinates
        (SQLiteCache.save_coordinates st now n₁ [lon, lat] source confidence).1
        lookup_time n₂).1.hits = st.hits + 1 := by
  have hkey : SQLiteCache.get_city_hash n₁ = SQLiteCache.get_city_hash n₂ := hnorm
  refine ⟨hkey, ?_, ?_⟩
  · unfold SQLiteCache.save_coordinates
    cases st.coordinates (SQLiteCache.get_city_hash n₁) <;> rfl
  · unfold SQLiteCache.get_coordinates SQLiteCache.save_coordinates
    rw [← hkey]
    cases h : st.coordinates (SQLiteCache.get_city_hash n₁) <;> simp [h, hlive]

/-- Witness for C3: spec scenario 1 — save "BELO HORIZONTE" on a fresh
`SQLiteCache` store, read back "belo horizonte " (trailing space): the
coordinates come back and the session hit counter is 1. -/
theorem c3_witness :
    pyStrip (pyUpper "BELO HORIZONTE".toList) = pyStrip (pyUpper "belo horizonte ".toList) ∧
    (¬ (0 : ℤ) > 0 + SQLiteCache.emptyState.ttl_hours) ∧
    SQLiteCache.get_city_hash "BELO HORIZONTE".toList =
      SQLiteCache.get_city_hash "belo horizonte ".toList ∧
    (SQLiteCache.save_coordinates SQLiteCache.emptyState 0 "BELO HORIZONTE".toList
        [PyFloat.finite (-43.9345), PyFloat.finite (-19.9167)] "nominatim".toList 1).2 = true ∧
    (SQLiteCache.get_coordinates
        (SQLiteCache.save_coordinates SQLiteCache.emptyState 0 "BELO HORIZONTE".toList
          [PyFloat.finite (-43.9345), PyFloat.finite (-19.9167)] "nominatim".toList 1).1
        0 "belo horizonte ".toList).2 =
      some [PyFloat.finite (-43.9345), PyFloat.finite (-19.9167)] ∧
    (SQLiteCache.get_coordinates
        (SQLiteCache.save_coordinates SQLiteCache.emptyState 0 "BELO HORIZONTE".toList
          [PyFloat.finite (-43.9345), PyFloat.finite (-19.9167)] "nominatim".toList 1).1
        0 "belo horizonte ".toList).1.hits = SQLiteCache.emptyState.hits + 1 := by
  have h := c3_coordinate_key_normalized SQLiteCache.emptyState 0 0
    "BELO HORIZONTE".toList "belo horizonte ".toList
    (PyFloat.finite (-43.9345)) (PyFloat.finite (-19.9167)) "nominatim".toList 1
    (by decide) (by decide)
  exact ⟨by decide, by decide, h.1, h.2.1, h.2.2.1, h.2.2.2⟩

/-- Counterexample to C9: `SQLiteCache.save_coordinates` only checks that
the coordinates argument is a (non-empty) list of length 2 — finiteness is
never validated.  A NaN coordinate passes validation, the call returns
`True` and the entry is stored. -/
theorem c9_counterexample :
    PyFloat.isFinite PyFloat.nan = false ∧
    (SQLiteCache.save_coordinates SQLiteCache.emptyState 0 "A".toList
        [PyFloat.nan, PyFloat.finite 0] "nominatim".toList 1).2 = true ∧
    ((SQLiteCache.save_coordinates SQLiteCache.emptyState 0 "A".toList
        [PyFloat.nan, PyFloat.finite 0] "nominatim".toList 1).1.coordinates
      (SQLiteCache.get_city_hash "A".toList)).isSome = true := by decide

/-- C9 (amended): `save_coordinates` validates only that the coordinates
argument is a list of exactly two elements (finiteness is not checked).
When the list has exactly two elements the entry is upserted by canonical
key with `expires_at = now + ttl` and the save counter is incremented and
the call returns `True`; otherwise the call returns `False` and the state
is unchanged. -/
theorem c9_save_coordinates_validation (st : SQLiteCache.State) (now : ℤ)
    (city_name : Str) (coordinates : List PyFloat) (source : Str) (confidence : ℚ) :
    (∀ lon lat, coordinates = [lon, lat] →
      (SQLiteCache.save_coordinates st now city_name coordinates source confidence).2 = true ∧
      (SQLiteCache.save_coordinates st now city_name coordinates source confidence).1.saves =
        st.saves + 1 ∧
      (∀ e, (SQLiteCache.save_coordinates st now city_name coordinates source
            confidence).1.coordinates (SQLiteCache.get_city_hash city_name) = some e →
        e.longitude = lon ∧ e.latitude = lat ∧ e.expires_at = now + st.ttl_hours) ∧
      ((SQLiteCache.save_coordinates st now city_name coordinates source
          confidence).1.coordinates (SQLiteCache.get_city_hash city_name)).isSome = true) ∧
    (coordinates.length ≠ 2 →
      SQLiteCache.save_coordinates st now city_name coordinates source confidence =
        (st, false)) := by
  constructor
  · intro lon lat hc
    subst hc
    unfold SQLiteCache.save_coordinates
    cases h : st.coordinates (SQLiteCache.get_city_hash city_name) with
    | none =>
      refine ⟨rfl, rfl, ?_, by simp⟩
      intro e he
      simp [h] at he
      simp [← he]
    | some old =>
      refine ⟨rfl, rfl, ?_, by simp⟩
      intro e he
      simp [h] at he
      simp [← he]
  · intro hlen
    unfold SQLiteCache.save_coordinates
    match coordinates, hlen with
    | [], _ => rfl
    | [_], _ => rfl
    | [a, b], h => exact absurd rfl h
    | _ :: _ :: _ :: _, _ => rfl

/-- Witness for C9: a valid two-element save succeeds and stores; a
one-element save fails and leaves the store untouched. -/
theorem c9_witness :
    (([PyFloat.finite 1, PyFloat.finite 2] : List PyFloat) = [PyFloat.finite 1, PyFloat.finite 2]) ∧
    (SQLiteCache.save_coordinates SQLiteCache.emptyState 0 "A".toList
        [PyFloat.finite 1, PyFloat.finite 2] "s".toList 1).2 = true ∧
    (SQLiteCache.save_coordinates SQLiteCache.emptyState 0 "A".toList
        [PyFloat.finite 1, PyFloat.finite 2] "s".toList 1).1.saves =
      SQLiteCache.emptyState.saves + 1 ∧
    (([PyFloat.finite 1] : List PyFloat).length ≠ 2) ∧
    SQLiteCache.save_coordinates SQLiteCache.emptyState 0 "A".toList
        [PyFloat.finite 1] "s".toList 1 = (SQLiteCache.emptyState, false) := by
  have h := c9_save_coordinates_validation SQLiteCache.emptyState 0 "A".toList
    [PyFloat.finite 1, PyFloat.finite 2] "s".toList 1
  have h1 := h.1 (PyFloat.finite 1) (PyFloat.finite 2) rfl
  have h' := c9_save_coordinates_validation SQLiteCache.emptyState 0 "A".toList
    [PyFloat.finite 1] "s".toList 1
  exact ⟨rfl, h1.1, h1.2.1, by decide, h'.2 (by decide)⟩

/-- C2: `SQLiteCache.get_coordinates` canonicalizes the name and looks up
by hash; every call increments exactly one of the session hit / miss
counters; a missing entry is a miss; a found-but-expired entry is deleted
and counts as a miss; a live entry gets its `hits` column incremented and
its stored coordinates are returned as a hit. -/
theorem c2_get_coordinates_spec (st : SQLiteCache.State) (now : ℤ) (city_name : Str) :
    ((SQLiteCache.get_coordinates st now city_name).1.hits = st.hits + 1 ∧
        (SQLiteCache.get_coordinates st now city_name).1.misses = st.misses ∨
      (SQLiteCache.get_coordinates st now city_name).1.misses = st.misses + 1 ∧
        (SQLiteCache.get_coordinates st now city_name).1.hits = st.hits) ∧
    (st.coordinates (SQLiteCache.get_city_hash city_name) = none →
      (SQLiteCache.get_coordinates st now city_name).2 = none ∧
      (SQLiteCache.get_coordinates st now city_name).1.misses = st.misses + 1) ∧
    (∀ row, st.coordinates (SQLiteCache.get_city_hash city_name) = some row →
      now > row.expires_at →
      (SQLiteCache.get_coordinates st now city_name).2 = none ∧
      (SQLiteCache.get_coordinates st now city_name).1.coordinates
          (SQLiteCache.get_city_hash city_name) = none ∧
      (SQLiteCache.get_coordinates st now city_name).1.misses = st.misses + 1) ∧
    (∀ row, st.coordinates (SQLiteCache.get_city_hash city_name) = some row →
      ¬ now > row.expires_at →
      (SQLiteCache.get_coordinates st now city_name).2 =
        some [row.longitude, row.latitude] ∧
      (SQLiteCache.get_coordinates st now city_name).1.coordinates
          (SQLiteCache.get_city_hash city_name) = some { row with hits := row.hits + 1 } ∧
      (SQLiteCache.get_coordinates st now city_name).1.hits = st.hits + 1) := by
  cases h : st.coordinates (SQLiteCache.get_city_hash city_name) with
  | none =>
    have hres : SQLiteCache.get_coordinates st now city_name =
        ({ st with misses := st.misses + 1 }, none) := by
      unfold SQLiteCache.get_coordinates
      simp only [h]
    rw [hres]
    exact ⟨Or.inr ⟨rfl, rfl⟩, fun _ => ⟨rfl, rfl⟩,
      fun row hrow => absurd hrow (by simp),
      fun row hrow => absurd hrow (by simp)⟩
  | some row =>
    by_cases hexp : now > row.expires_at
    · have hres : SQLiteCache.get_coordinates st now city_name =
          ({ st with
              coordinates := fun k =>
                if k = SQLiteCache.get_city_hash city_name then none else st.coordinates k
              misses := st.misses + 1 }, none) := by
        unfold SQLiteCache.get_coordinates
        simp only [h, if_pos hexp]
      rw [hres]
      refine ⟨Or.inr ⟨rfl, rfl⟩, fun hn => absurd hn (by simp), ?_, ?_⟩
      · intro row' hrow' _
        exact ⟨rfl, by simp, rfl⟩
      · intro row' hrow' hexp'
        rw [Option.some.injEq] at hrow'
        subst hrow'
        exact absurd hexp hexp'
    · have hres : SQLiteCache.get_coordinates st now city_name =
          ({ st with
              coordinates := fun k =>
                if k = SQLiteCache.get_city_hash city_name then
                  some { row with hits := row.hits + 1 }
                else st.coordinates k
              hits := st.hits + 1 },
            some [row.longitude, row.latitude]) := by
        unfold SQLiteCache.get_coordinates
        simp only [h, if_neg hexp]
      rw [hres]
      refine ⟨Or.inl ⟨rfl, rfl⟩, fun hn => absurd hn (by simp), ?_, ?_⟩
      · intro row' hrow' hexp'
        rw [Option.some.injEq] at hrow'
        subst hrow'
        exact absurd hexp' hexp
      · intro row' hrow' _
        rw [Option.some.injEq] at hrow'
        subst hrow'
        exact ⟨rfl, by simp, rfl⟩

/-- Witness for C2: a fresh save of "A" followed by a read of "A" at the
same instant is a live hit: the stored coordinates come back, the entry
hit column becomes 1 and the session hit counter goes up by one. -/
theorem c2_witness :
    ((SQLiteCache.save_coordinates SQLiteCache.emptyState 0 "A".toList
          [PyFloat.finite 1, PyFloat.finite 2] "s".toList 1).1.coordinates
        (SQLiteCache.get_city_hash "A".toList) =
      some { city_name := "A".toList
             city_name_normalized := SQLiteCache.normalize_city_name "A".toList
             longitude := PyFloat.finite 1
             latitude := PyFloat.finite 2
             source := "s".toList
             confidence := 1
             created_at := 0
             expires_at := 0 + SQLiteCache.emptyState.ttl_hours
             hits := 0 }) ∧
    (¬ (0 : ℤ) > 0 + SQLiteCache.emptyState.ttl_hours) ∧
    (SQLiteCache.get_coordinates
        (SQLiteCache.save_coordinates SQLiteCache.emptyState 0 "A".toList
          [PyFloat.finite 1, PyFloat.finite 2] "s".toList 1).1
        0 "A".toList).2 = some [PyFloat.finite 1, PyFloat.finite 2] ∧
    (SQLiteCache.get_coordinates
        (SQLiteCache.save_coordinates SQLiteCache.emptyState 0 "A".toList
          [PyFloat.finite 1, PyFloat.finite 2] "s".toList 1).1
        0 "A".toList).1.hits =
      (SQLiteCache.save_coordinates SQLiteCache.emptyState 0 "A".toList
          [PyFloat.finite 1, PyFloat.finite 2] "s".toList 1).1.hits + 1 := by
  have h := c2_get_coordinates_spec
    (SQLiteCache.save_coordinates SQLiteCache.emptyState 0 "A".toList
      [PyFloat.finite 1, PyFloat.finite 2] "s".toList 1).1 0 "A".toList
  have h4 := h.2.2.2
    { city_name := "A".toList
      city_name_normalized := SQLiteCache.normalize_city_name "A".toList
      longitude := PyFloat.finite 1
      latitude := PyFloat.finite 2
      source := "s".toList
      confidence := 1
      created_at := 0
      expires_at := 0 + SQLiteCache.emptyState.ttl_hours
      hits := 0 } (by decide) (by decide)
  exact ⟨by decide, by decide, h4.1, h4.2.2⟩

/-- C6 (amended): when the origin does not geocode, the job terminates with
status `origem_nao_encontrada`, `sucessos = 0`, `erros` equal to the number
of destinations, and exactly *one* `geocoding_origem` error record is
produced (with destination `'N/A'`), regardless of the destination count;
no destination geocoding or distance computation is attempted
(`destinos_calculados` stays empty). -/
theorem c6_origin_unresolved (geo : Str → Option (ℚ × ℚ))
    (dist : Str → ParallelProcessor.DistOutcome)
    (linha : ParallelProcessor.Linha) (order : List Str)
    (h : geo linha.origem = none) :
    (ParallelProcessor.process_linha_paralela geo dist linha order).status =
      ParallelProcessor.ResultStatus.origem_nao_encontrada ∧
    (ParallelProcessor.process_linha_paralela geo dist linha order).sucessos = 0 ∧
    (ParallelProcessor.process_linha_paralela geo dist linha order).erros =
      linha.destinos.length ∧
    (ParallelProcessor.process_linha_paralela geo dist linha order).erros_detalhados =
      [⟨ParallelProcessor.ErroTipo.geocoding_origem, linha.origem, ParallelProcessor.NA⟩] ∧
    (ParallelProcessor.process_linha_paralela geo dist linha order).destinos_calculados =
      [] := by
  unfold ParallelProcessor.process_linha_paralela
  rw [h]
  exact ⟨rfl, rfl, rfl, rfl, rfl⟩

/-- Counterexample to C6: a job with three destinations and an
unresolvable origin produces exactly one error record, not one per
destination (the claim predicts three). -/
theorem c6_counterexample :
    (ParallelProcessor.process_linha_paralela (fun _ => none)
        (fun _ => ParallelProcessor.DistOutcome.failed)
        ⟨1, "A".toList, ["B".toList, "C".toList, "D".toList]⟩
        ["B".toList, "C".toList, "D".toList]).erros = 3 ∧
    (ParallelProcessor.process_linha_paralela (fun _ => none)
        (fun _ => ParallelProcessor.DistOutcome.failed)
        ⟨1, "A".toList, ["B".toList, "C".toList, "D".toList]⟩
        ["B".toList, "C".toList, "D".toList]).sucessos = 0 ∧
    (ParallelProcessor.process_linha_paralela (fun _ => none)
        (fun _ => ParallelProcessor.DistOutcome.failed)
        ⟨1, "A".toList, ["B".toList, "C".toList, "D".toList]⟩
        ["B".toList, "C".toList, "D".toList]).erros_detalhados.length = 1 ∧
    ¬ (ParallelProcessor.process_linha_paralela (fun _ => none)
        (fun _ => ParallelProcessor.DistOutcome.failed)
        ⟨1, "A".toList, ["B".toList, "C".toList, "D".toList]⟩
        ["B".toList, "C".toList, "D".toList]).erros_detalhados.length = 3 := by decide

/-- Witness for C6: the amended theorem applied to the concrete
three-destination job with an origin that never geocodes. -/
theorem c6_witness :
    ((fun (_ : Str) => (none : Option (ℚ × ℚ)))
        (ParallelProcessor.Linha.origem ⟨1, "A".toList, ["B".toList, "C".toList, "D".toList]⟩) =
      none) ∧
    (ParallelProcessor.process_linha_paralela (fun _ => none)
        (fun _ => ParallelProcessor.DistOutcome.failed)
        ⟨1, "A".toList, ["B".toList, "C".toList, "D".toList]⟩
        ["B".toList, "C".toList, "D".toList]).status =
      ParallelProcessor.ResultStatus.origem_nao_encontrada ∧
    (ParallelProcessor.process_linha_paralela (fun _ => none)
        (fun _ => ParallelProcessor.DistOutcome.failed)
        ⟨1, "A".toList, ["B".toList, "C".toList, "D".toList]⟩
        ["B".toList, "C".toList, "D".toList]).erros = 3 ∧
    (ParallelProcessor.process_linha_paralela (fun _ => none)
        (fun _ => ParallelProcessor.DistOutcome.failed)
        ⟨1, "A".toList, ["B".toList, "C".toList, "D".toList]⟩
        ["B".toList, "C".toList, "D".toList]).destinos_calculados = [] := by
  have h := c6_origin_unresolved (fun _ => none)
    (fun _ => ParallelProcessor.DistOutcome.failed)
    ⟨1, "A".toList, ["B".toList, "C".toList, "D".toList]⟩
    ["B".toList, "C".toList, "D".toList] rfl
  exact ⟨rfl, h.1, h.2.2.1, h.2.2.2.2⟩

theorem pow_sleeps_cons (attempt n : ℕ) :
    2 ^ attempt :: (List.range n).map (fun i => 2 ^ (attempt + 1 + i)) =
      (List.range (n + 1)).map (fun i => 2 ^ (attempt + i)) := by
  rw [List.range_succ_eq_map, List.map_cons, List.map_map]
  simp only [Nat.add_zero]
  congr 1
  apply List.map_congr_left
  intro a _
  simp only [Function.comp_apply]
  congr 1
  omega

theorem retryAux_calls_le (now : ℤ) (o d : Str) :
    ∀ (l : List ParallelProcessor.AttemptOutcome)
      (st : SQLiteCacheWithDistances.State) (attempt : ℕ),
      (ParallelProcessor.retryAux now o d st attempt l).calls ≤ l.length := by
  intro l
  induction l with
  | nil => intro st attempt; simp [ParallelProcessor.retryAux]
  | cons x rest ih =>
    intro st attempt
    cases x with
    | ok m s => simp [ParallelProcessor.retryAux]
    | badResponse =>
      simp only [ParallelProcessor.retryAux, List.length_cons]
      exact Nat.succ_le_succ (ih st (attempt + 1))
    | raised =>
      simp only [ParallelProcessor.retryAux, List.length_cons]
      exact Nat.succ_le_succ (ih st (attempt + 1))

theorem retryAux_success (now : ℤ) (o d : Str) (m s : ℚ) :
    ∀ (pre post : List ParallelProcessor.AttemptOutcome)
      (st : SQLiteCacheWithDistances.State) (attempt : ℕ),
      (∀ x ∈ pre, x.isOk = false) →
      ParallelProcessor.retryAux now o d st attempt
          (pre ++ ParallelProcessor.AttemptOutcome.ok m s :: post) =
        { state := SQLiteCacheWithDistances.save_distance st now o d (m / 1000) (s / 60)
          calls := pre.length + 1
          sleeps := (List.range pre.length).map (fun i => 2 ^ (attempt + i))
          result := { status := ParallelProcessor.CalcStatus.sucesso
                      distancia_km := some (round2 (m / 1000))
                      tempo_min := some (round0 (s / 60))
                      hits := none
                      erro_detalhes := none } } := by
  intro pre
  induction pre with
  | nil =>
    intro post st attempt _
    simp [ParallelProcessor.retryAux]
  | cons x pre ih =>
    intro post st attempt hfail
    have hx : x.isOk = false := hfail x (List.mem_cons_self x pre)
    have hpre : ∀ y ∈ pre, y.isOk = false := fun y hy => hfail y (List.mem_cons_of_mem x hy)
    have hne : pre ++ ParallelProcessor.AttemptOutcome.ok m s :: post ≠ [] := by simp
    cases x with
    | ok a b => simp [ParallelProcessor.AttemptOutcome.isOk] at hx
    | badResponse =>
      rw [List.cons_append]
      simp only [ParallelProcessor.retryAux]
      rw [ih post st (attempt + 1) hpre, if_neg hne]
      simp only [List.singleton_append, List.length_cons]
      rw [pow_sleeps_cons]
    | raised =>
      rw [List.cons_append]
      simp only [ParallelProcessor.retryAux]
      rw [ih post st (attempt + 1) hpre, if_neg hne]
      simp only [List.singleton_append, List.length_cons]
      rw [pow_sleeps_cons]

theorem retryAux_allfail (now : ℤ) (o d : Str) :
    ∀ (l : List ParallelProcessor.AttemptOutcome)
      (st : SQLiteCacheWithDistances.State) (attempt : ℕ),
      (∀ x ∈ l, x.isOk = false) →
      ParallelProcessor.retryAux now o d st attempt l =
        { state := st
          calls := l.length
          sleeps := (List.range (l.length - 1)).map (fun i => 2 ^ (attempt + i))
          result := { status := ParallelProcessor.CalcStatus.erro_calculo
                      distancia_km := none
                      tempo_min := none
                      hits := none
                      erro_detalhes := some (o, d) } } := by
  intro l
  induction l with
  | nil => intro st attempt _; simp [ParallelProcessor.retryAux]
  | cons x rest ih =>
    intro st attempt hfail
    have hx : x.isOk = false := hfail x (List.mem_cons_self x rest)
    have hrest : ∀ y ∈ rest, y.isOk = false := fun y hy => hfail y (List.mem_cons_of_mem x hy)
    cases x with
    | ok a b => simp [ParallelProcessor.AttemptOutcome.isOk] at hx
    | badResponse =>
      simp only [ParallelProcessor.retryAux]
      rw [ih st (attempt + 1) hrest]
      cases rest with
      | nil => simp [ParallelProcessor.retryAux]
      | cons y t =>
        rw [if_neg (by simp)]
        simp only [List.singleton_append, List.length_cons, Nat.add_sub_cancel]
        rw [pow_sleeps_cons]
    | raised =>
      simp only [ParallelProcessor.retryAux]
      rw [ih st (attempt + 1) hrest]
      cases rest with
      | nil => simp [ParallelProcessor.retryAux]
      | cons y t =>
        rw [if_neg (by simp)]
        simp only [List.singleton_append, List.length_cons, Nat.add_sub_cancel]
        rw [pow_sleeps_cons]

theorem get_distance_preserves_ttl (st : SQLiteCacheWithDistances.State)
    (now : ℤ) (o d : Str) :
    (SQLiteCacheWithDistances.get_distance st now o d).1.distance_ttl_hours =
      st.distance_ttl_hours := by
  unfold SQLiteCacheWithDistances.get_distance
  cases h : st.distances (SQLiteCacheWithDistances.get_route_hash o d) with
  | none => simp [h]
  | some row =>
    simp only [h]
    split <;> rfl

theorem calculate_distance_with_retry_miss (st : SQLiteCacheWithDistances.State)
    (now : ℤ) (oc dc : ℚ × ℚ) (o d : Str)
    (outcomes : ℕ → ParallelProcessor.AttemptOutcome) (mr : ℕ)
    (hmiss : (SQLiteCacheWithDistances.get_distance st now o d).2 = none) :
    ParallelProcessor.calculate_distance_with_retry st now oc dc o d outcomes mr =
      ParallelProcessor.retryAux now o d
        (SQLiteCacheWithDistances.get_distance st now o d).1 0
        ((List.range mr).map outcomes) := by
  unfold ParallelProcessor.calculate_distance_with_retry
  simp only [hmiss]

/-- C4: on a distance-cache miss the retry loop makes at most `max_retries`
client calls; if exactly the first `K < max_retries` attempts fail and
attempt `K` succeeds, exactly `K + 1` calls are made, the raw result is
stored in the distance cache and the rounded result returned with status
`sucesso`, the delays slept are `2^0, …, 2^(K-1)` seconds (`base * 2^attempt`
with base 1, hence non-decreasing) — one fewer sleep than calls, so none
after the final attempt; and if every attempt fails the call returns the
`erro_calculo` dictionary with absent distance and duration and the failure
detail, again sleeping only between attempts. -/
theorem c4_retry_bound (st : SQLiteCacheWithDistances.State) (now : ℤ)
    (oc dc : ℚ × ℚ) (o d : Str)
    (outcomes : ℕ → ParallelProcessor.AttemptOutcome) (max_retries : ℕ)
    (hmiss : (SQLiteCacheWithDistances.get_distance st now o d).2 = none) :
    (ParallelProcessor.calculate_distance_with_retry st now oc dc o d outcomes
        max_retries).calls ≤ max_retries ∧
    (∀ K m s, K < max_retries →
      (∀ i, i < K → (outcomes i).isOk = false) →
      outcomes K = ParallelProcessor.AttemptOutcome.ok m s →
      (ParallelProcessor.calculate_distance_with_retry st now oc dc o d outcomes
          max_retries).calls = K + 1 ∧
      (ParallelProcessor.calculate_distance_with_retry st now oc dc o d outcomes
          max_retries).result.status = ParallelProcessor.CalcStatus.sucesso ∧
      (ParallelProcessor.calculate_distance_with_retry st now oc dc o d outcomes
          max_retries).result.distancia_km = some (round2 (m / 1000)) ∧
      (ParallelProcessor.calculate_distance_with_retry st now oc dc o d outcomes
          max_retries).result.tempo_min = some (round0 (s / 60)) ∧
      (ParallelProcessor.calculate_distance_with_retry st now oc dc o d outcomes
          max_retries).state.distances (SQLiteCacheWithDistances.get_route_hash o d) =
        some { origin_city := o
               destination_city := d
               distance_km := m / 1000
               duration_minutes := s / 60
               created_at := now
               expires_at := now + st.distance_ttl_hours
               hits := 0 } ∧
      (ParallelProcessor.calculate_distance_with_retry st now oc dc o d outcomes
          max_retries).sleeps = (List.range K).map (fun i => 2 ^ i) ∧
      (ParallelProcessor.calculate_distance_with_retry st now oc dc o d outcomes
          max_retries).sleeps.Pairwise (· ≤ ·) ∧
      (ParallelProcessor.calculate_distance_with_retry st now oc dc o d outcomes
          max_retries).sleeps.length + 1 =
        (ParallelProcessor.calculate_distance_with_retry st now oc dc o d outcomes
          max_retries).calls) ∧
    ((∀ i, i < max_retries → (outcomes i).isOk = false) →
      (ParallelProcessor.calculate_distance_with_retry st now oc dc o d outcomes
          max_retries).calls = max_retries ∧
      (ParallelProcessor.calculate_distance_with_retry st now oc dc o d outcomes
          max_retries).result =
        { status := ParallelProcessor.CalcStatus.erro_calculo
          distancia_km := none
          tempo_min := none
          hits := none
          erro_detalhes := some (o, d) } ∧
      (ParallelProcessor.calculate_distance_with_retry st now oc dc o d outcomes
          max_retries).sleeps =
        (List.range (max_retries - 1)).map (fun i => 2 ^ i)) := by
  rw [calculate_distance_with_retry_miss st now oc dc o d outcomes max_retries hmiss]
  refine ⟨?_, ?_, ?_⟩
  · calc (ParallelProcessor.retryAux now o d
        (SQLiteCacheWithDistances.get_distance st now o d).1 0
        ((List.range max_retries).map outcomes)).calls
        ≤ ((List.range max_retries).map outcomes).length :=
          retryAux_calls_le now o d _ _ 0
      _ = max_retries := by simp
  · intro K m s hK hfail hok
    obtain ⟨R, hR⟩ : ∃ R, max_retries = K + (1 + R) := ⟨max_retries - K - 1, by omega⟩
    have hsplit : (List.range max_retries).map outcomes =
        (List.range K).map outcomes ++
          ParallelProcessor.AttemptOutcome.ok m s ::
            (List.range R).map (fun i => outcomes (K + 1 + i)) := by
      rw [hR, List.range_add, List.map_append]
      congr 1
      rw [(by omega : 1 + R = R + 1), List.range_succ_eq_map]
      simp only [List.map_cons, List.map_map, Nat.add_zero, hok]
      congr 1
      apply List.map_congr_left
      intro a _
      simp only [Function.comp_apply]
      congr 1
      omega
    have hprefail : ∀ x ∈ (List.range K).map outcomes, x.isOk = false := by
      intro x hmem
      obtain ⟨i, hi, rfl⟩ := List.mem_map.mp hmem
      exact hfail i (List.mem_range.mp hi)
    rw [hsplit, retryAux_success now o d m s _ _ _ 0 hprefail]
    have hlen : ((List.range K).map outcomes).length = K := by simp
    have hzero : ((List.range ((List.range K).map outcomes).length).map
        (fun i => 2 ^ (0 + i))) = (List.range K).map (fun i => 2 ^ i) := by
      rw [hlen]
      exact List.map_congr_left (fun a _ => by rw [Nat.zero_add])
    refine ⟨by simp [hlen], rfl, rfl, rfl, ?_, ?_, ?_, ?_⟩
    · unfold SQLiteCacheWithDistances.save_distance
      simp [get_distance_preserves_ttl]
    · exact hzero
    · show ((List.range ((List.range K).map outcomes).length).map
          (fun i => 2 ^ (0 + i))).Pairwise (· ≤ ·)
      rw [hzero]
      exact List.Pairwise.map (fun i => 2 ^ i)
        (fun a b hab => Nat.pow_le_pow_right (by norm_num) (Nat.le_of_lt hab))
        (List.pairwise_lt_range K)
    · simp [hlen]
  · intro hfail
    have hallfail : ∀ x ∈ (List.range max_retries).map outcomes, x.isOk = false := by
      intro x hmem
      obtain ⟨i, hi, rfl⟩ := List.mem_map.mp hmem
      exact hfail i (List.mem_range.mp hi)
    rw [retryAux_allfail now o d _ _ 0 hallfail]
    refine ⟨by simp, rfl, ?_⟩
    simp only [List.length_map, List.length_range]
    apply List.map_congr_left
    intro a _
    rw [Nat.zero_add]

/-- Witness for C4: fresh store (a miss), attempt 0 fails, attempt 1
succeeds, `max_retries = 3`: two client calls, status `sucesso`, one sleep
of `2^0 = 1` second, and one fewer sleep than calls. -/
theorem c4_witness :
    (SQLiteCacheWithDistances.get_distance SQLiteCacheWithDistances.emptyState 0
        "A".toList "B".toList).2 = none ∧
    (ParallelProcessor.calculate_distance_with_retry SQLiteCacheWithDistances.emptyState 0
        (0, 0) (0, 0) "A".toList "B".toList
        (fun i => if i = 0 then ParallelProcessor.AttemptOutcome.badResponse
          else ParallelProcessor.AttemptOutcome.ok 1000 60) 3).calls = 1 + 1 ∧
    (ParallelProcessor.calculate_distance_with_retry SQLiteCacheWithDistances.emptyState 0
        (0, 0) (0, 0) "A".toList "B".toList
        (fun i => if i = 0 then ParallelProcessor.AttemptOutcome.badResponse
          else ParallelProcessor.AttemptOutcome.ok 1000 60) 3).result.status =
      ParallelProcessor.CalcStatus.sucesso ∧
    (ParallelProcessor.calculate_distance_with_retry SQLiteCacheWithDistances.emptyState 0
        (0, 0) (0, 0) "A".toList "B".toList
        (fun i => if i = 0 then ParallelProcessor.AttemptOutcome.badResponse
          else ParallelProcessor.AttemptOutcome.ok 1000 60) 3).sleeps =
      (List.range 1).map (fun i => 2 ^ i) ∧
    (ParallelProcessor.calculate_distance_with_retry SQLiteCacheWithDistances.emptyState 0
        (0, 0) (0, 0) "A".toList "B".toList
        (fun i => if i = 0 then ParallelProcessor.AttemptOutcome.badResponse
          else ParallelProcessor.AttemptOutcome.ok 1000 60) 3).sleeps.length + 1 =
      (ParallelProcessor.calculate_distance_with_retry SQLiteCacheWithDistances.emptyState 0
        (0, 0) (0, 0) "A".toList "B".toList
        (fun i => if i = 0 then ParallelProcessor.AttemptOutcome.badResponse
          else ParallelProcessor.AttemptOutcome.ok 1000 60) 3).calls := by
  have hmiss : (SQLiteCacheWithDistances.get_distance SQLiteCacheWithDistances.emptyState 0
      "A".toList "B".toList).2 = none := by decide
  have h := (c4_retry_bound SQLiteCacheWithDistances.emptyState 0 (0, 0) (0, 0)
      "A".toList "B".toList
      (fun i => if i = 0 then ParallelProcessor.AttemptOutcome.badResponse
        else ParallelProcessor.AttemptOutcome.ok 1000 60) 3 hmiss).2.1
    1 1000 60 (by norm_num)
    (fun i hi => by
      have h0 : i = 0 := by omega
      subst h0
      rfl)
    rfl
  exact ⟨hmiss, h.1, h.2.1, h.2.2.2.2.2.1, h.2.2.2.2.2.2.2⟩

theorem process_linha_paralela_linha_excel (geo : Str → Option (ℚ × ℚ))
    (dist : Str → ParallelProcessor.DistOutcome)
    (linha : ParallelProcessor.Linha) (order : List Str) :
    (ParallelProcessor.process_linha_paralela geo dist linha order).linha_excel =
      linha.linha_excel := by
  unfold ParallelProcessor.process_linha_paralela
  cases h : geo linha.origem <;> simp [h]

theorem sorted_perm_nodup_key_eq {α : Type} (key : α → ℕ) :
    ∀ (l₁ l₂ : List α), l₁.Perm l₂ →
      l₁.Pairwise (fun a b => key a ≤ key b) →
      l₂.Pairwise (fun a b => key a ≤ key b) →
      (l₁.map key).Nodup → l₁ = l₂ := by
  intro l₁
  induction l₁ with
  | nil =>
    intro l₂ hp _ _ _
    exact (List.Perm.eq_nil hp.symm).symm
  | cons a t₁ ih =>
    intro l₂ hp hs₁ hs₂ hnd
    cases l₂ with
    | nil => exact absurd (List.Perm.eq_nil hp) (by simp)
    | cons b t₂ =>
      by_cases hab : a = b
      · subst hab
        rw [ih t₂ hp.cons_inv hs₁.of_cons hs₂.of_cons
          ((List.nodup_cons.mp hnd).2)]
      · exfalso
        have hbmem : b ∈ a :: t₁ := hp.symm.subset (List.mem_cons_self b t₂)
        have hbt : b ∈ t₁ := by
          rcases List.mem_cons.mp hbmem with h | h
          · exact absurd h.symm hab
          · exact h
        have hamem : a ∈ b :: t₂ := hp.subset (List.mem_cons_self a t₁)
        have hat : a ∈ t₂ := by
          rcases List.mem_cons.mp hamem with h | h
          · exact absurd h hab
          · exact h
        have h₁ : key a ≤ key b := (List.pairwise_cons.mp hs₁).1 b hbt
        have h₂ : key b ≤ key a := (List.pairwise_cons.mp hs₂).1 a hat
        have hk : key a = key b := le_antisymm h₁ h₂
        have hmem : key b ∈ t₁.map key := List.mem_map_of_mem key hbt
        rw [← hk] at hmem
        exact (List.nodup_cons.mp hnd).1 hmem

/-- C5: for every batch and every completion order of the dispatched jobs,
the batch result is sorted ascending by `linha_excel`; and when the batch
indices are pairwise distinct (they are spreadsheet row positions) the
returned list is identical for every completion order, i.e. the output is
deterministic. -/
theorem c5_deterministic_ordering (geo : Str → Option (ℚ × ℚ))
    (dist : Str → ParallelProcessor.DistOutcome)
    (ord : ParallelProcessor.Linha → List Str)
    (linhas completion : List ParallelProcessor.Linha)
    (hperm : completion.Perm linhas) :
    (ParallelProcessor.process_all_lines_parallel geo dist ord completion).Pairwise
      (fun a b => a.linha_excel ≤ b.linha_excel) ∧
    ((linhas.map ParallelProcessor.Linha.linha_excel).Nodup →
      ParallelProcessor.process_all_lines_parallel geo dist ord completion =
        ParallelProcessor.process_all_lines_parallel geo dist ord linhas) := by
  have hsorted : ∀ jobs : List ParallelProcessor.Linha,
      (ParallelProcessor.process_all_lines_parallel geo dist ord jobs).Pairwise
        (fun a b => a.linha_excel ≤ b.linha_excel) := by
    intro jobs
    have h := @List.sorted_mergeSort ParallelProcessor.Resultado
      (fun a b => decide (a.linha_excel ≤ b.linha_excel))
      (fun a b c hab hbc => by
        simp only [decide_eq_true_eq] at hab hbc ⊢
        omega)
      (fun a b => by
        simp only [Bool.or_eq_true, decide_eq_true_eq]
        omega)
      (jobs.map (fun linha => ParallelProcessor.process_linha_paralela geo dist linha
        (ord linha)))
    exact h.imp (fun hab => by simpa using hab)
  refine ⟨hsorted completion, ?_⟩
  intro hnd
  have hmapperm : (completion.map (fun linha =>
      ParallelProcessor.process_linha_paralela geo dist linha (ord linha))).Perm
      (linhas.map (fun linha =>
        ParallelProcessor.process_linha_paralela geo dist linha (ord linha))) :=
    hperm.map _
  have hout : (ParallelProcessor.process_all_lines_parallel geo dist ord completion).Perm
      (ParallelProcessor.process_all_lines_parallel geo dist ord linhas) := by
    unfold ParallelProcessor.process_all_lines_parallel
    exact ((List.mergeSort_perm _ _).trans hmapperm).trans (List.mergeSort_perm _ _).symm
  have hkeys : ((ParallelProcessor.process_all_lines_parallel geo dist ord
      completion).map ParallelProcessor.Resultado.linha_excel).Nodup := by
    have hk1 : ((ParallelProcessor.process_all_lines_parallel geo dist ord
        completion).map ParallelProcessor.Resultado.linha_excel).Perm
        (completion.map (fun linha => (ParallelProcessor.process_linha_paralela geo dist
          linha (ord linha)).linha_excel)) := by
      unfold ParallelProcessor.process_all_lines_parallel
      have := (List.mergeSort_perm (completion.map (fun linha =>
        ParallelProcessor.process_linha_paralela geo dist linha (ord linha)))
        (fun a b => decide (a.linha_excel ≤ b.linha_excel))).map
        ParallelProcessor.Resultado.linha_excel
      simpa [List.map_map, Function.comp] using this
    have hk2 : (completion.map (fun linha =>
        (ParallelProcessor.process_linha_paralela geo dist linha
          (ord linha)).linha_excel)) =
        completion.map ParallelProcessor.Linha.linha_excel :=
      List.map_congr_left (fun linha _ =>
        process_linha_paralela_linha_excel geo dist linha (ord linha))
    have hk3 : (completion.map ParallelProcessor.Linha.linha_excel).Perm
        (linhas.map ParallelProcessor.Linha.linha_excel) := hperm.map _
    exact ((hk1.trans (hk2 ▸ hk3)).nodup_iff).mpr hnd
  exact sorted_perm_nodup_key_eq ParallelProcessor.Resultado.linha_excel _ _
    hout (hsorted completion) (hsorted linhas) hkeys

/-- Witness for C5: a two-job batch collected in reversed completion order
comes back sorted by `linha_excel` and equal to the in-order run. -/
theorem c5_witness :
    (([⟨2, "B".toList, []⟩, ⟨1, "A".toList, []⟩] : List ParallelProcessor.Linha).Perm
      [⟨1, "A".toList, []⟩, ⟨2, "B".toList, []⟩]) ∧
    (([⟨1, "A".toList, []⟩, ⟨2, "B".toList, []⟩] :
        List ParallelProcessor.Linha).map ParallelProcessor.Linha.linha_excel).Nodup ∧
    (ParallelProcessor.process_all_lines_parallel (fun _ => none)
        (fun _ => ParallelProcessor.DistOutcome.failed) (fun _ => [])
        [⟨2, "B".toList, []⟩, ⟨1, "A".toList, []⟩]).Pairwise
      (fun a b => a.linha_excel ≤ b.linha_excel) ∧
    ParallelProcessor.process_all_lines_parallel (fun _ => none)
        (fun _ => ParallelProcessor.DistOutcome.failed) (fun _ => [])
        [⟨2, "B".toList, []⟩, ⟨1, "A".toList, []⟩] =
      ParallelProcessor.process_all_lines_parallel (fun _ => none)
        (fun _ => ParallelProcessor.DistOutcome.failed) (fun _ => [])
        [⟨1, "A".toList, []⟩, ⟨2, "B".toList, []⟩] := by
  have hperm := List.Perm.swap (⟨1, "A".toList, []⟩ : ParallelProcessor.Linha)
    ⟨2, "B".toList, []⟩ []
  have h := c5_deterministic_ordering (fun _ => none)
    (fun _ => ParallelProcessor.DistOutcome.failed) (fun _ => [])
    [⟨1, "A".toList, []⟩, ⟨2, "B".toList, []⟩]
    [⟨2, "B".toList, []⟩, ⟨1, "A".toList, []⟩] hperm
  exact ⟨hperm, by decide, h.1, h.2 (by decide)⟩

theorem foldl_min_mem (key : ParallelProcessor.DestCalc → ℚ) :
    ∀ (t : List ParallelProcessor.DestCalc) (a : ParallelProcessor.DestCalc),
      t.foldl (fun m x => if key x < key m then x else m) a ∈ a :: t := by
  intro t
  induction t with
  | nil => intro a; simp
  | cons x t ih =>
    intro a
    simp only [List.foldl_cons]
    by_cases hc : key x < key a
    · rw [if_pos hc]
      rcases List.mem_cons.mp (ih x) with h | h
      · rw [h]
        exact List.mem_cons_of_mem a (List.mem_cons_self x t)
      · exact List.mem_cons_of_mem a (List.mem_cons_of_mem x h)
    · rw [if_neg hc]
      rcases List.mem_cons.mp (ih a) with h | h
      · rw [h]
        exact List.mem_cons_self a _
      · exact List.mem_cons_of_mem a (List.mem_cons_of_mem x h)

theorem foldl_min_le (key : ParallelProcessor.DestCalc → ℚ) :
    ∀ (t : List ParallelProcessor.DestCalc) (a c : ParallelProcessor.DestCalc),
      c ∈ a :: t →
      key (t.foldl (fun m x => if key x < key m then x else m) a) ≤ key c := by
  intro t
  induction t with
  | nil =>
    intro a c hc
    rcases List.mem_cons.mp hc with h | h
    · subst h; exact le_refl _
    · exact absurd h (by simp)
  | cons x t ih =>
    intro a c hc
    simp only [List.foldl_cons]
    have hba : key (if key x < key a then x else a) ≤ key a := by
      by_cases hc' : key x < key a
      · rw [if_pos hc']; exact le_of_lt hc'
      · rw [if_neg hc']
    have hbx : key (if key x < key a then x else a) ≤ key x := by
      by_cases hc' : key x < key a
      · rw [if_pos hc']
      · rw [if_neg hc']; exact le_of_not_lt hc'
    have hfb : key (t.foldl (fun m x => if key x < key m then x else m)
        (if key x < key a then x else a)) ≤ key (if key x < key a then x else a) :=
      ih (if key x < key a then x else a) _ (List.mem_cons_self _ t)
    rcases List.mem_cons.mp hc with h | h
    · subst h
      exact le_trans hfb hba
    rcases List.mem_cons.mp h with h | h
    · subst h
      exact le_trans hfb hbx
    · exact ih (if key x < key a then x else a) c (List.mem_cons_of_mem _ h)

theorem pyMinBy_spec (key : ParallelProcessor.DestCalc → ℚ)
    (l : List ParallelProcessor.DestCalc) (hl : l ≠ []) :
    ∃ m, ParallelProcessor.pyMinBy key l = some m ∧ m ∈ l ∧ ∀ c ∈ l, key m ≤ key c := by
  cases l with
  | nil => exact absurd rfl hl
  | cons a t =>
    exact ⟨t.foldl (fun m x => if key x < key m then x else m) a, rfl,
      foldl_min_mem key t a, fun c hc => foldl_min_le key t a c hc⟩

/-- C7 (amended): for a job whose origin resolves and that has at least one
destination result with a distance, `destino_mais_proximo` is a successful
destination attaining the minimum `distancia_km` among all successful
results and `km_mais_proximo` is that minimum; which of several tied
minima is reported is decided by the order the results were collected
(first minimal in `destinos_calculados`), not by the `destination_names`
input order (see the counterexample). -/
theorem c7_nearest_selection (geo : Str → Option (ℚ × ℚ))
    (dist : Str → ParallelProcessor.DistOutcome)
    (linha : ParallelProcessor.Linha) (order : List Str) (c₀ : ℚ × ℚ)
    (hgeo : geo linha.origem = some c₀)
    (hne : (ParallelProcessor.process_linha_paralela geo dist linha
        order).destinos_calculados.filter
        (fun dcalc => dcalc.distancia_km.isSome) ≠ []) :
    ∃ m, m ∈ (ParallelProcessor.process_linha_paralela geo dist linha
        order).destinos_calculados ∧
      m.distancia_km.isSome = true ∧
      (ParallelProcessor.process_linha_paralela geo dist linha
        order).destino_mais_proximo = some m.destino ∧
      (ParallelProcessor.process_linha_paralela geo dist linha
        order).km_mais_proximo = m.distancia_km ∧
      ∀ c ∈ (ParallelProcessor.process_linha_paralela geo dist linha
        order).destinos_calculados, ∀ q, c.distancia_km = some q →
        m.distancia_km.getD 0 ≤ q := by
  have hbranch1 : (ParallelProcessor.process_linha_paralela geo dist linha
      order).destino_mais_proximo =
      (ParallelProcessor.pyMinBy (fun dcalc => dcalc.distancia_km.getD 0)
        ((ParallelProcessor.process_linha_paralela geo dist linha
          order).destinos_calculados.filter
          (fun dcalc => dcalc.distancia_km.isSome))).map
        (fun dcalc => dcalc.destino) := by
    unfold ParallelProcessor.process_linha_paralela
    simp only [hgeo]
  have hbranch2 : (ParallelProcessor.process_linha_paralela geo dist linha
      order).km_mais_proximo =
      (ParallelProcessor.pyMinBy (fun dcalc => dcalc.distancia_km.getD 0)
        ((ParallelProcessor.process_linha_paralela geo dist linha
          order).destinos_calculados.filter
          (fun dcalc => dcalc.distancia_km.isSome))).bind
        (fun dcalc => dcalc.distancia_km) := by
    unfold ParallelProcessor.process_linha_paralela
    simp only [hgeo]
  obtain ⟨m, hmin, hmem, hle⟩ :=
    pyMinBy_spec (fun dcalc => dcalc.distancia_km.getD 0)
      ((ParallelProcessor.process_linha_paralela geo dist linha
        order).destinos_calculados.filter
        (fun dcalc => dcalc.distancia_km.isSome)) hne
  refine ⟨m, (List.mem_filter.mp hmem).1, (List.mem_filter.mp hmem).2, ?_, ?_, ?_⟩
  · rw [hbranch1, hmin]
    rfl
  · rw [hbranch2, hmin]
    rfl
  · intro c hc q hq
    have hcf : c ∈ (ParallelProcessor.process_linha_paralela geo dist linha
        order).destinos_calculados.filter
        (fun dcalc => dcalc.distancia_km.isSome) :=
      List.mem_filter.mpr ⟨hc, by rw [hq]; rfl⟩
    have := hle c hcf
    calc m.distancia_km.getD 0 ≤ c.distancia_km.getD 0 := this
      _ = q := by rw [hq]; rfl

/-- Counterexample to C7: destinations [X, Y] both succeed with the same
distance 5; for the completion order [Y, X] the code reports Y (first
minimal in collection order), while the claim's input-order tie-break
predicts X. -/
theorem c7_counterexample :
    ((["Y".toList, "X".toList] : List Str).Perm ["X".toList, "Y".toList]) ∧
    (ParallelProcessor.process_linha_paralela (fun _ => some (0, 0))
        (fun _ => ParallelProcessor.DistOutcome.fresh 5 1)
        ⟨1, "O".toList, ["X".toList, "Y".toList]⟩
        ["Y".toList, "X".toList]).destinos_calculados.map
      (fun dcalc => dcalc.distancia_km) = [some 5, some 5] ∧
    (ParallelProcessor.process_linha_paralela (fun _ => some (0, 0))
        (fun _ => ParallelProcessor.DistOutcome.fresh 5 1)
        ⟨1, "O".toList, ["X".toList, "Y".toList]⟩
        ["Y".toList, "X".toList]).destino_mais_proximo = some "Y".toList ∧
    ¬ (ParallelProcessor.process_linha_paralela (fun _ => some (0, 0))
        (fun _ => ParallelProcessor.DistOutcome.fresh 5 1)
        ⟨1, "O".toList, ["X".toList, "Y".toList]⟩
        ["Y".toList, "X".toList]).destino_mais_proximo = some "X".toList := by
  refine ⟨List.Perm.swap "X".toList "Y".toList [], ?_, ?_, ?_⟩ <;> decide

/-- Witness for C7: the spec's nearest-selection example — distances
[12.3, 5.0, 40.1] for destinations [X, Y, Z]. -/
theorem c7_witness :
    ((fun (_ : Str) => some ((0 : ℚ), (0 : ℚ)))
        (ParallelProcessor.Linha.origem
          ⟨1, "O".toList, ["X".toList, "Y".toList, "Z".toList]⟩) = some (0, 0)) ∧
    ((ParallelProcessor.process_linha_paralela (fun _ => some (0, 0))
        (fun s => if s = "X".toList then ParallelProcessor.DistOutcome.fresh 12.3 1
          else if s = "Y".toList then ParallelProcessor.DistOutcome.fresh 5 1
          else ParallelProcessor.DistOutcome.fresh 40.1 1)
        ⟨1, "O".toList, ["X".toList, "Y".toList, "Z".toList]⟩
        ["X".toList, "Y".toList, "Z".toList]).destinos_calculados.filter
      (fun dcalc => dcalc.distancia_km.isSome) ≠ []) ∧
    (∃ m, m ∈ (ParallelProcessor.process_linha_paralela (fun _ => some (0, 0))
        (fun s => if s = "X".toList then ParallelProcessor.DistOutcome.fresh 12.3 1
          else if s = "Y".toList then ParallelProcessor.DistOutcome.fresh 5 1
          else ParallelProcessor.DistOutcome.fresh 40.1 1)
        ⟨1, "O".toList, ["X".toList, "Y".toList, "Z".toList]⟩
        ["X".toList, "Y".toList, "Z".toList]).destinos_calculados ∧
      m.distancia_km.isSome = true ∧
      (ParallelProcessor.process_linha_paralela (fun _ => some (0, 0))
        (fun s => if s = "X".toList then ParallelProcessor.DistOutcome.fresh 12.3 1
          else if s = "Y".toList then ParallelProcessor.DistOutcome.fresh 5 1
          else ParallelProcessor.DistOutcome.fresh 40.1 1)
        ⟨1, "O".toList, ["X".toList, "Y".toList, "Z".toList]⟩
        ["X".toList, "Y".toList, "Z".toList]).destino_mais_proximo = some m.destino ∧
      (ParallelProcessor.process_linha_paralela (fun _ => some (0, 0))
        (fun s => if s = "X".toList then ParallelProcessor.DistOutcome.fresh 12.3 1
          else if s = "Y".toList then ParallelProcessor.DistOutcome.fresh 5 1
          else ParallelProcessor.DistOutcome.fresh 40.1 1)
        ⟨1, "O".toList, ["X".toList, "Y".toList, "Z".toList]⟩
        ["X".toList, "Y".toList, "Z".toList]).km_mais_proximo = m.distancia_km ∧
      ∀ c ∈ (ParallelProcessor.process_linha_paralela (fun _ => some (0, 0))
        (fun s => if s = "X".toList then ParallelProcessor.DistOutcome.fresh 12.3 1
          else if s = "Y".toList then ParallelProcessor.DistOutcome.fresh 5 1
          else ParallelProcessor.DistOutcome.fresh 40.1 1)
        ⟨1, "O".toList, ["X".toList, "Y".toList, "Z".toList]⟩
        ["X".toList, "Y".toList, "Z".toList]).destinos_calculados,
        ∀ q, c.distancia_km = some q → m.distancia_km.getD 0 ≤ q) := by
  refine ⟨rfl, by decide, ?_⟩
  exact c7_nearest_selection (fun _ => some (0, 0))
    (fun s => if s = "X".toList then ParallelProcessor.DistOutcome.fresh 12.3 1
      else if s = "Y".toList then ParallelProcessor.DistOutcome.fresh 5 1
      else ParallelProcessor.DistOutcome.fresh 40.1 1)
    ⟨1, "O".toList, ["X".toList, "Y".toList, "Z".toList]⟩
    ["X".toList, "Y".toList, "Z".toList] (0, 0) rfl (by decide)

theorem countP_add_countP_not {α : Type} (p : α → Bool) :
    ∀ l : List α, l.countP p + l.countP (fun a => ! p a) = l.length := by
  intro l
  induction l with
  | nil => rfl
  | cons x t ih =>
    simp only [List.countP_cons, List.length_cons]
    cases h : p x <;> simp [h] <;> omega

theorem calcular_distancia_destino_destino (origem : Str)
    (dist : Str → ParallelProcessor.DistOutcome) (item : Str × Option (ℚ × ℚ)) :
    (ParallelProcessor.calcular_distancia_destino origem dist item).destino = item.1 := by
  obtain ⟨destino, oc⟩ := item
  cases oc with
  | none => rfl
  | some c =>
    unfold ParallelProcessor.calcular_distancia_destino
    cases h : dist destino <;> simp [h]

/-- C10: for every job and every completion order, `sucessos + erros`
equals the number of destinations.  When the origin resolves, every
destination contributes exactly one entry to `destinos_calculados` (the
multiset of reported destinations is exactly `destinos`) and each entry is
tallied as success or error exactly once; when the origin is unresolved,
`sucessos = 0` and `erros` equals the destination count. -/
theorem c10_success_error_tally (geo : Str → Option (ℚ × ℚ))
    (dist : Str → ParallelProcessor.DistOutcome)
    (linha : ParallelProcessor.Linha) (order : List Str)
    (hperm : order.Perm linha.destinos) :
    (ParallelProcessor.process_linha_paralela geo dist linha order).sucessos +
      (ParallelProcessor.process_linha_paralela geo dist linha order).erros =
      linha.destinos.length ∧
    (∀ c₀, geo linha.origem = some c₀ →
      ((ParallelProcessor.process_linha_paralela geo dist linha
          order).destinos_calculados.map (fun dcalc => dcalc.destino)).Perm
        linha.destinos ∧
      (ParallelProcessor.process_linha_paralela geo dist linha
        order).destinos_calculados.length = linha.destinos.length) ∧
    (geo linha.origem = none →
      (ParallelProcessor.process_linha_paralela geo dist linha order).sucessos = 0 ∧
      (ParallelProcessor.process_linha_paralela geo dist linha order).erros =
        linha.destinos.length) := by
  cases hgeo : geo linha.origem with
  | none =>
    unfold ParallelProcessor.process_linha_paralela
    simp only [hgeo]
    exact ⟨Nat.zero_add _, fun c₀ h => Option.noConfusion h,
      fun _ => ⟨by trivial, by trivial⟩⟩
  | some c =>
    unfold ParallelProcessor.process_linha_paralela
    simp only [hgeo]
    have hmap : ((order.map (fun destino => (destino, geo destino))).map
        (ParallelProcessor.calcular_distancia_destino linha.origem dist)).map
        (fun dcalc => dcalc.destino) = order := by
      rw [List.map_map, List.map_map]
      conv_rhs => rw [← List.map_id order]
      apply List.map_congr_left
      intro a _
      simp only [Function.comp_apply, id]
      exact calcular_distancia_destino_destino linha.origem dist (a, geo a)
    refine ⟨?_, fun c₀ _ => ⟨?_, ?_⟩, fun h => Option.noConfusion h⟩
    · rw [countP_add_countP_not]
      simp only [List.length_map]
      exact hperm.length_eq
    · rw [hmap]
      exact hperm
    · simp only [List.length_map]
      exact hperm.length_eq

/-- Witness for C10: a two-destination job processed in reversed completion
order tallies `sucessos + erros = 2` with one entry per destination, and
the same job with an unresolvable origin tallies `0` and `2`. -/
theorem c10_witness :
    ((["C".toList, "B".toList] : List Str).Perm ["B".toList, "C".toList]) ∧
    ((fun (_ : Str) => some ((0 : ℚ), (0 : ℚ)))
        (ParallelProcessor.Linha.origem ⟨1, "O".toList, ["B".toList, "C".toList]⟩) =
      some (0, 0)) ∧
    (ParallelProcessor.process_linha_paralela (fun _ => some (0, 0))
        (fun s => if s = "B".toList then ParallelProcessor.DistOutcome.fresh 5 1
          else ParallelProcessor.DistOutcome.failed)
        ⟨1, "O".toList, ["B".toList, "C".toList]⟩
        ["C".toList, "B".toList]).sucessos +
      (ParallelProcessor.process_linha_paralela (fun _ => some (0, 0))
        (fun s => if s = "B".toList then ParallelProcessor.DistOutcome.fresh 5 1
          else ParallelProcessor.DistOutcome.failed)
        ⟨1, "O".toList, ["B".toList, "C".toList]⟩
        ["C".toList, "B".toList]).erros =
      (["B".toList, "C".toList] : List Str).length ∧
    ((ParallelProcessor.process_linha_paralela (fun _ => some (0, 0))
        (fun s => if s = "B".toList then ParallelProcessor.DistOutcome.fresh 5 1
          else ParallelProcessor.DistOutcome.failed)
        ⟨1, "O".toList, ["B".toList, "C".toList]⟩
        ["C".toList, "B".toList]).destinos_calculados.map
      (fun dcalc => dcalc.destino)).Perm ["B".toList, "C".toList] ∧
    (ParallelProcessor.process_linha_paralela (fun _ => none)
        (fun s => if s = "B".toList then ParallelProcessor.DistOutcome.fresh 5 1
          else ParallelProcessor.DistOutcome.failed)
        ⟨1, "O".toList, ["B".toList, "C".toList]⟩
        ["C".toList, "B".toList]).sucessos = 0 ∧
    (ParallelProcessor.process_linha_paralela (fun _ => none)
        (fun s => if s = "B".toList then ParallelProcessor.DistOutcome.fresh 5 1
          else ParallelProcessor.DistOutcome.failed)
        ⟨1, "O".toList, ["B".toList, "C".toList]⟩
        ["C".toList, "B".toList]).erros = (["B".toList, "C".toList] : List Str).length := by
  have hperm := List.Perm.swap "B".toList "C".toList ([] : List Str)
  have h1 := c10_success_error_tally (fun _ => some (0, 0))
    (fun s => if s = "B".toList then ParallelProcessor.DistOutcome.fresh 5 1
      else ParallelProcessor.DistOutcome.failed)
    ⟨1, "O".toList, ["B".toList, "C".toList]⟩ ["C".toList, "B".toList] hperm
  have h2 := c10_success_error_tally (fun _ => none)
    (fun s => if s = "B".toList then ParallelProcessor.DistOutcome.fresh 5 1
      else ParallelProcessor.DistOutcome.failed)
    ⟨1, "O".toList, ["B".toList, "C".toList]⟩ ["C".toList, "B".toList] hperm
  exact ⟨hperm, rfl, h1.1, (h1.2.1 (0, 0) rfl).1, (h2.2.2 rfl).1, (h2.2.2 rfl).2⟩

theorem row_destinos_not_mem (origem : Str) :
    ∀ cells : List (Option Str),
      origem ∉ (AdvancedDistanceSystemSQLite.row_destinos origem cells).1 := by
  intro cells
  induction cells with
  | nil => simp [AdvancedDistanceSystemSQLite.row_destinos]
  | cons cell rest ih =>
    unfold AdvancedDistanceSystemSQLite.row_destinos
    cases hc : AdvancedDistanceSystemSQLite.clean_city_name cell with
    | none => simpa [hc] using ih
    | some destino =>
      simp only [hc]
      by_cases hd : destino ≠ origem
      · rw [if_pos hd]
        intro hmem
        rcases List.mem_cons.mp hmem with h | h
        · exact hd h.symm
        · exact ih h
      · rw [if_neg hd]
        exact ih

theorem row_destinos_count (origem : Str) :
    ∀ cells : List (Option Str),
      (AdvancedDistanceSystemSQLite.row_destinos origem cells).2 =
        cells.countP (fun cell =>
          decide (AdvancedDistanceSystemSQLite.clean_city_name cell = some origem)) := by
  intro cells
  induction cells with
  | nil => rfl
  | cons cell rest ih =>
    unfold AdvancedDistanceSystemSQLite.row_destinos
    rw [List.countP_cons]
    cases hc : AdvancedDistanceSystemSQLite.clean_city_name cell with
    | none =>
      simp only [hc]
      simp [ih]
    | some destino =>
      simp only [hc]
      by_cases hd : destino = origem
      · subst hd
        rw [if_neg (by simp)]
        simp [ih]
      · rw [if_pos hd]
        simp [ih, hd]

theorem analyze_rows_mem :
    ∀ (idx : ℕ) (rows : List AdvancedDistanceSystemSQLite.Row)
      (job : ParallelProcessor.Linha),
      job ∈ (AdvancedDistanceSystemSQLite.analyze_rows idx rows).1 →
      ∃ row ∈ rows,
        AdvancedDistanceSystemSQLite.clean_city_name row.origem_cell = some job.origem ∧
        job.destinos =
          (AdvancedDistanceSystemSQLite.row_destinos job.origem row.destino_cells).1 := by
  intro idx rows
  induction rows generalizing idx with
  | nil =>
    intro job h
    simp [AdvancedDistanceSystemSQLite.analyze_rows] at h
  | cons row rest ih =>
    intro job h
    unfold AdvancedDistanceSystemSQLite.analyze_rows at h
    cases hc : AdvancedDistanceSystemSQLite.clean_city_name row.origem_cell with
    | none =>
      simp only [hc] at h
      obtain ⟨r, hr, hcr, hdr⟩ := ih (idx + 1) job h
      exact ⟨r, List.mem_cons_of_mem row hr, hcr, hdr⟩
    | some origem =>
      simp only [hc] at h
      by_cases hd :
          (AdvancedDistanceSystemSQLite.row_destinos origem row.destino_cells).1 ≠ []
      · rw [if_pos hd] at h
        rcases List.mem_cons.mp h with h | h
        · subst h
          exact ⟨row, List.mem_cons_self row rest, hc, rfl⟩
        · obtain ⟨r, hr, hcr, hdr⟩ := ih (idx + 1) job h
          exact ⟨r, List.mem_cons_of_mem row hr, hcr, hdr⟩
      · rw [if_neg hd] at h
        obtain ⟨r, hr, hcr, hdr⟩ := ih (idx + 1) job h
        exact ⟨r, List.mem_cons_of_mem row hr, hcr, hdr⟩

theorem analyze_rows_count :
    ∀ (idx : ℕ) (rows : List AdvancedDistanceSystemSQLite.Row),
      (AdvancedDistanceSystemSQLite.analyze_rows idx rows).2 =
        (rows.map (fun row =>
          match AdvancedDistanceSystemSQLite.clean_city_name row.origem_cell with
          | none => 0
          | some origem => row.destino_cells.countP
              (fun cell =>
                decide (AdvancedDistanceSystemSQLite.clean_city_name cell =
                  some origem)))).sum := by
  intro idx rows
  induction rows generalizing idx with
  | nil => rfl
  | cons row rest ih =>
    unfold AdvancedDistanceSystemSQLite.analyze_rows
    rw [List.map_cons, List.sum_cons]
    cases hc : AdvancedDistanceSystemSQLite.clean_city_name row.origem_cell with
    | none =>
      simp only [hc]
      rw [ih (idx + 1)]
      simp
    | some origem =>
      simp only [hc]
      rw [row_destinos_count origem row.destino_cells, ih (idx + 1)]

/-- C8: a destination cell that cleans to the same normalized name as the
row's origin (uppercase, trimmed, double spaces collapsed) is excluded from
the job's `destinos` and counted in `destinos_ignorados` (one per such
cell, summed over the rows whose origin resolves); consequently the origin
name never appears among a job's destinations, and every destination ever
handed to geocoding / distance computation by `process_linha_paralela`
comes from `destinos` and so differs from the origin. -/
theorem c8_self_pair_exclusion (rows : List AdvancedDistanceSystemSQLite.Row) :
    (∀ job ∈ (AdvancedDistanceSystemSQLite.analyze_spreadsheet_advanced rows).1,
      job.origem ∉ job.destinos) ∧
    ((AdvancedDistanceSystemSQLite.analyze_spreadsheet_advanced rows).2 =
      (rows.map (fun row =>
        match AdvancedDistanceSystemSQLite.clean_city_name row.origem_cell with
        | none => 0
        | some origem => row.destino_cells.countP
            (fun cell =>
              decide (AdvancedDistanceSystemSQLite.clean_city_name cell =
                some origem)))).sum) ∧
    (∀ job ∈ (AdvancedDistanceSystemSQLite.analyze_spreadsheet_advanced rows).1,
      ∀ (geo : Str → Option (ℚ × ℚ)) (dist : Str → ParallelProcessor.DistOutcome)
        (order : List Str), order.Perm job.destinos →
        ∀ dcalc ∈ (ParallelProcessor.process_linha_paralela geo dist job
            order).destinos_calculados,
          dcalc.destino ∈ job.destinos ∧ dcalc.destino ≠ job.origem) := by
  have hnot : ∀ job ∈ (AdvancedDistanceSystemSQLite.analyze_spreadsheet_advanced rows).1,
      job.origem ∉ job.destinos := by
    intro job hjob
    obtain ⟨row, _, _, hdest⟩ := analyze_rows_mem 0 rows job hjob
    rw [hdest]
    exact row_destinos_not_mem job.origem row.destino_cells
  refine ⟨hnot, analyze_rows_count 0 rows, ?_⟩
  intro job hjob geo dist order hperm dcalc hdcalc
  have hmem : dcalc.destino ∈ order := by
    cases hgeo : geo job.origem with
    | none =>
      unfold ParallelProcessor.process_linha_paralela at hdcalc
      simp only [hgeo] at hdcalc
      exact absurd hdcalc (by simp)
    | some c =>
      unfold ParallelProcessor.process_linha_paralela at hdcalc
      simp only [hgeo] at hdcalc
      obtain ⟨p, hp, rfl⟩ := List.mem_map.mp hdcalc
      obtain ⟨a, ha, rfl⟩ := List.mem_map.mp hp
      rw [calcular_distancia_destino_destino]
      exact ha
  have hmem' : dcalc.destino ∈ job.destinos := hperm.subset hmem
  exact ⟨hmem', fun he => hnot job hjob (he ▸ hmem')⟩

/-- Witness for C8: one row with origin "A" and destination cells
["B", "A", NaN] — the self-pair "A" is dropped and counted, the job keeps
only "B", and processing the job only ever touches "B". -/
theorem c8_witness :
    ((⟨1, "A".toList, ["B".toList]⟩ : ParallelProcessor.Linha) ∈
      (AdvancedDistanceSystemSQLite.analyze_spreadsheet_advanced
        [⟨some "A".toList, [some "B".toList, some "A".toList, none]⟩]).1) ∧
    (AdvancedDistanceSystemSQLite.analyze_spreadsheet_advanced
        [⟨some "A".toList, [some "B".toList, some "A".toList, none]⟩]).2 = 1 ∧
    ((⟨1, "A".toList, ["B".toList]⟩ : ParallelProcessor.Linha).origem ∉
      (⟨1, "A".toList, ["B".toList]⟩ : ParallelProcessor.Linha).destinos) ∧
    ((⟨"B".toList, none, none, ParallelProcessor.CalcStatus.erro_calculo,
        some ⟨ParallelProcessor.ErroTipo.calculo_distancia, "A".toList, "B".toList⟩⟩ :
        ParallelProcessor.DestCalc).destino ∈
      (⟨1, "A".toList, ["B".toList]⟩ : ParallelProcessor.Linha).destinos ∧
      (⟨"B".toList, none, none, ParallelProcessor.CalcStatus.erro_calculo,
        some ⟨ParallelProcessor.ErroTipo.calculo_distancia, "A".toList, "B".toList⟩⟩ :
        ParallelProcessor.DestCalc).destino ≠
        (⟨1, "A".toList, ["B".toList]⟩ : ParallelProcessor.Linha).origem) := by
  have h := c8_self_pair_exclusion
    [⟨some "A".toList, [some "B".toList, some "A".toList, none]⟩]
  refine ⟨by decide, by decide, h.1 ⟨1, "A".toList, ["B".toList]⟩ (by decide), ?_⟩
  exact h.2.2 ⟨1, "A".toList, ["B".toList]⟩ (by decide)
    (fun _ => some (0, 0)) (fun _ => ParallelProcessor.DistOutcome.failed)
    ["B".toList] (List.Perm.refl _)
    ⟨"B".toList, none, none, ParallelProcessor.CalcStatus.erro_calculo,
      some ⟨ParallelProcessor.ErroTipo.calculo_distancia, "A".toList, "B".toList⟩⟩
    (by decide)

theorem analyze_rows_linha_excel_lt :
    ∀ (idx : ℕ) (rows : List AdvancedDistanceSystemSQLite.Row),
      ∀ job ∈ (AdvancedDistanceSystemSQLite.analyze_rows idx rows).1,
        idx < job.linha_excel := by
  intro idx rows
  induction rows generalizing idx with
  | nil =>
    intro job h
    simp [AdvancedDistanceSystemSQLite.analyze_rows] at h
  | cons row rest ih =>
    intro job h
    unfold AdvancedDistanceSystemSQLite.analyze_rows at h
    cases hc : AdvancedDistanceSystemSQLite.clean_city_name row.origem_cell with
    | none =>
      simp only [hc] at h
      exact Nat.lt_of_succ_lt (ih (idx + 1) job h)
    | some origem =>
      simp only [hc] at h
      by_cases hd :
          (AdvancedDistanceSystemSQLite.row_destinos origem row.destino_cells).1 ≠ []
      · rw [if_pos hd] at h
        rcases List.mem_cons.mp h with h | h
        · subst h
          exact Nat.lt_succ_self idx
        · exact Nat.lt_of_succ_lt (ih (idx + 1) job h)
      · rw [if_neg hd] at h
        exact Nat.lt_of_succ_lt (ih (idx + 1) job h)

/-- The batch indices produced by `analyze_spreadsheet_advanced` are
strictly increasing, hence pairwise distinct — the hypothesis under which
`ProcessBatch` output is completion-order independent. -/
theorem analyze_spreadsheet_linha_excel_nodup
    (rows : List AdvancedDistanceSystemSQLite.Row) :
    (((AdvancedDistanceSystemSQLite.analyze_spreadsheet_advanced rows).1).map
      ParallelProcessor.Linha.linha_excel).Nodup := by
  have hpair : ∀ (idx : ℕ) (rs : List AdvancedDistanceSystemSQLite.Row),
      (AdvancedDistanceSystemSQLite.analyze_rows idx rs).1.Pairwise
        (fun a b => a.linha_excel < b.linha_excel) := by
    intro idx rs
    induction rs generalizing idx with
    | nil => simp [AdvancedDistanceSystemSQLite.analyze_rows]
    | cons row rest ih =>
      unfold AdvancedDistanceSystemSQLite.analyze_rows
      cases hc : AdvancedDistanceSystemSQLite.clean_city_name row.origem_cell with
      | none =>
        simp only [hc]
        exact ih (idx + 1)
      | some origem =>
        simp only [hc]
        by_cases hd :
            (AdvancedDistanceSystemSQLite.row_destinos origem row.destino_cells).1 ≠ []
        · rw [if_pos hd]
          exact List.pairwise_cons.mpr
            ⟨fun job hjob => analyze_rows_linha_excel_lt (idx + 1) rest job hjob,
              ih (idx + 1)⟩
        · rw [if_neg hd]
          exact ih (idx + 1)
  exact List.pairwise_map.mpr ((hpair 0 rows).imp (fun h => Nat.ne_of_lt h))
